import Mathlib

set_option linter.unusedVariables false
set_option maxRecDepth 8000

set_option allowUnsafeReducibility true in
attribute [semireducible] Rat.add Rat.mul Rat.inv Rat.sub Rat.ofScientific

namespace MediaInv

/-- Model of a Python/JSON scalar as it flows through the media-inventory
pipeline: a string, an integer, a (rational-valued) float, or Python None.
Floats are modelled by exact rationals; non-finite values are outside the
model. -/
inductive Val where
  | vStr (s : String)
  | vInt (n : Int)
  | vRat (q : ℚ)
  | vNone
  deriving DecidableEq

/-- Python errors that the embedded code can raise.  Only the constructor
matters for control flow (`except ValueError` catches `valueError` only);
the string is the exception text. -/
inductive PyErr where
  | valueError (msg : String)
  | typeError (msg : String)
  deriving DecidableEq

/-- ASCII digit character for a digit value below 10. -/
def digitChar (n : Nat) : Char := Char.ofNat (48 + n)

/-- ASCII decimal-digit test (model of `str.isdigit` restricted to ASCII). -/
def isDigitCh (c : Char) : Bool := 48 ≤ c.toNat && c.toNat ≤ 57

/-- ASCII whitespace test (model of Python `str.strip` / `\s`). -/
def isSpaceCh (c : Char) : Bool :=
  c.toNat = 32 || c.toNat = 9 || c.toNat = 10 || c.toNat = 13 || c.toNat = 11 || c.toNat = 12

/-- ASCII lower-casing of one character (model of `str.lower`). -/
def toLowerCh (c : Char) : Char :=
  if 65 ≤ c.toNat && c.toNat ≤ 90 then Char.ofNat (c.toNat + 32) else c

/-- Numeric value of an ASCII digit character. -/
def dVal (c : Char) : Nat := c.toNat - 48

/-- Fuel-driven decimal digit expansion of a natural number (most significant
digit first).  The fuel only needs to exceed the number of digits. -/
def natDigitsAux : Nat → Nat → List Char
  | 0, _ => []
  | fuel + 1, n => if n = 0 then [] else natDigitsAux fuel (n / 10) ++ [digitChar (n % 10)]

/-- Decimal digits of a natural number, `['0']` for zero. -/
def natDigits10 (n : Nat) : List Char := if n = 0 then ['0'] else natDigitsAux n n

/-- Decimal rendering of a natural number. -/
def natRepr (n : Nat) : String := ⟨natDigits10 n⟩

/-- Decimal rendering of an integer (model of Python `str(int)`). -/
def intRepr (i : Int) : String := (if i < 0 then "-" else "") ++ natRepr i.natAbs

/-- Value of a digit list read most-significant-first. -/
def digitsVal (l : List Char) : Nat := l.foldl (fun a c => 10 * a + dVal c) 0

/-- Model of Python `int(s)` on a string: optional surrounding whitespace,
optional sign, then a nonempty ASCII digit run.  (Underscore separators are
outside the model.) -/
def pyIntStr? (s : String) : Option Int :=
  let l := (s.data.dropWhile isSpaceCh).reverse.dropWhile isSpaceCh |>.reverse
  if l = [] then none
  else if l.headD ' ' = '-' then
    if l.tail ≠ [] && l.tail.all isDigitCh then some (-(digitsVal l.tail : Int)) else none
  else if l.headD ' ' = '+' then
    if l.tail ≠ [] && l.tail.all isDigitCh then some ((digitsVal l.tail : Int)) else none
  else if l.all isDigitCh then some ((digitsVal l : Int)) else none

/-- Fractional value of a digit list read as digits after a decimal point. -/
def fracVal (l : List Char) : ℚ := l.foldr (fun c a => ((dVal c : ℚ) + a) / 10) 0

/-- Model of Python `float(s)` on a string: optional whitespace and sign, a
decimal literal `digits[.digits]` or `.digits`, and an optional exponent.
Non-finite literals (`inf`, `nan`) are outside the model. -/
def pyFloatStr? (s : String) : Option ℚ :=
  let l := (s.data.dropWhile isSpaceCh).reverse.dropWhile isSpaceCh |>.reverse
  let (sgn, body) : ℚ × List Char :=
    match l with
    | '-' :: rest => (-1, rest)
    | '+' :: rest => (1, rest)
    | rest => (1, rest)
  let ipart := body.takeWhile isDigitCh
  let rest1 := body.dropWhile isDigitCh
  let (fpart, rest2) : List Char × List Char :=
    match rest1 with
    | '.' :: r => (r.takeWhile isDigitCh, r.dropWhile isDigitCh)
    | r => ([], r)
  if ipart.isEmpty && fpart.isEmpty then none
  else
    let mant : ℚ := (digitsVal ipart : ℚ) + fracVal fpart
    match rest2 with
    | [] => some (sgn * mant)
    | e :: r =>
      if e = 'e' || e = 'E' then
        let (esgn, edig) : Bool × List Char :=
          match r with
          | '-' :: r2 => (true, r2)
          | '+' :: r2 => (false, r2)
          | r2 => (false, r2)
        if edig ≠ [] && edig.all isDigitCh then
          let k := digitsVal edig
          some (sgn * mant * (if esgn then (1 / 10 ^ k) else (10 ^ k : ℚ)))
        else none
      else none

/-- Round a rational to the nearest integer, ties to even (the rounding used
when formatting floats with a fixed number of decimals). -/
def roundHalfEven (x : ℚ) : Int :=
  let n := x.floor
  let f := x - n
  if f < 1 / 2 then n else if 1 / 2 < f then n + 1 else if n % 2 = 0 then n else n + 1

/-- Left-pad the decimal rendering of `m` with zeros to `k` digits. -/
def padZeros (k : Nat) (m : Nat) : String :=
  ⟨List.replicate (k - (natDigits10 m).length) '0'⟩ ++ natRepr m

/-- Model of Python fixed-point float formatting `f"{q:.kf}"`. -/
def formatFix (k : Nat) (q : ℚ) : String :=
  let a := if q < 0 then -q else q
  let m := (roundHalfEven (a * 10 ^ k)).toNat
  (if q < 0 then "-" else "") ++ natRepr (m / 10 ^ k) ++ "." ++ padZeros k (m % 10 ^ k)

/-- The characters fixed-point formatting can emit: digits, minus, dot. -/
def goodCh (c : Char) : Bool := isDigitCh c || c = '-' || c = '.'

/-- Model of Python `repr(float)` for finite decimals: integer part, a dot and
the fractional digits (up to 17, at least one).  Only used inside description
strings whose exact text no theorem depends on. -/
def fracDigitsAux : Nat → ℚ → List Char
  | 0, _ => []
  | fuel + 1, f =>
    if f = 0 then []
    else
      let d := (f * 10).floor.toNat
      digitChar d :: fracDigitsAux fuel (f * 10 - (f * 10).floor)

/-- Decimal rendering of a rational as Python would print the float. -/
def pyFloatRepr (q : ℚ) : String :=
  let a := if q < 0 then -q else q
  let ip := a.floor.toNat
  let ds := fracDigitsAux 17 (a - a.floor)
  (if q < 0 then "-" else "") ++ natRepr ip ++ "." ++ (if ds.isEmpty then "0" else ⟨ds⟩)

/-- Remove the first `'.'` of a character list (model of `s.replace('.', '', 1)`). -/
def removeFirstDot : List Char → List Char
  | [] => []
  | c :: cs => if c = '.' then cs else c :: removeFirstDot cs

/-- Model of Python `s.isdigit()` (ASCII): nonempty and all digits. -/
def pyIsDigit (l : List Char) : Bool := !l.isEmpty && l.all isDigitCh

/-- Split a character list at every occurrence of `c` (model of `str.split(c)`). -/
def splitChAux (c : Char) : List Char → List Char → List (List Char)
  | [], acc => [acc.reverse]
  | x :: xs, acc =>
    if x = c then acc.reverse :: splitChAux c xs [] else splitChAux c xs (x :: acc)

/-- Model of Python `s.split(c)` for a one-character separator. -/
def pySplit (c : Char) (s : String) : List String :=
  (splitChAux c s.data []).map (fun l => ⟨l⟩)

/-- Model of Python `s.strip()`. -/
def pyStrip (s : String) : String :=
  ⟨(s.data.dropWhile isSpaceCh).reverse.dropWhile isSpaceCh |>.reverse⟩

/-- Model of Python `s.lower()` (ASCII). -/
def pyLowerStr (s : String) : String := ⟨s.data.map toLowerCh⟩

/-- `needle` occurs at the head of `hay`. -/
def strHasPre : List Char → List Char → Bool
  | [], _ => true
  | _ :: _, [] => false
  | a :: as, b :: bs => a = b && strHasPre as bs

/-- `needle` occurs somewhere in `hay`. -/
def strHasSub (needle : List Char) : List Char → Bool
  | [] => needle.isEmpty
  | b :: bs => strHasPre needle (b :: bs) || strHasSub needle bs

/-- Model of Python substring containment `needle in hay`. -/
def pyInStr (needle hay : String) : Bool := strHasSub needle.data hay.data

/-- Model of `str.join` over a separator. -/
def joinSep (sep : String) : List String → String
  | [] => ""
  | [x] => x
  | x :: xs => x ++ sep ++ joinSep sep xs

/-- Code-point comparison of strings, the order Python sorts strings by. -/
def strLeB : List Char → List Char → Bool
  | [], _ => true
  | _ :: _, [] => false
  | a :: as, b :: bs =>
    if a.toNat < b.toNat then true else if a.toNat = b.toNat then strLeB as bs else false

/-- Insertion of a string into a sorted list (helper for `pySort`). -/
def insSorted (x : String) : List String → List String
  | [] => [x]
  | y :: ys => if strLeB x.data y.data then x :: y :: ys else y :: insSorted x ys

/-- Model of Python `list.sort()` on strings (any stable sort agrees on
strings, since equal strings are identical). -/
def pySort : List String → List String
  | [] => []
  | x :: xs => insSorted x (pySort xs)

/-- Model of Python `str(v)`. -/
def pyStr : Val → String
  | .vStr s => s
  | .vInt n => intRepr n
  | .vRat q => pyFloatRepr q
  | .vNone => "None"

/-- Python `==` between a pipeline value and a string literal: values of other
types never compare equal to a string. -/
def valEqS (v : Val) (s : String) : Bool :=
  match v with
  | .vStr t => t = s
  | _ => false

/-- Python `==` between a pipeline value and an int literal. -/
def valEqI (v : Val) (n : Int) : Bool :=
  match v with
  | .vInt m => m = n
  | .vRat q => q = (n : ℚ)
  | _ => false

/-- `is_empty_or_na` (media-inventory.py lines 162-163):
`value in (None, "", "N/A", "null", "NULL", "Null")`. -/
def is_empty_or_na (v : Val) : Bool :=
  match v with
  | .vNone => true
  | .vStr s => s = "" || s = "N/A" || s = "null" || s = "NULL" || s = "Null"
  | _ => false

/-- Model of Python `int(v)`: ints pass through, floats truncate toward zero,
strings are parsed (`ValueError` on failure), `None` raises `TypeError`. -/
def pyIntV : Val → Except PyErr Int
  | .vInt n => .ok n
  | .vRat q => .ok (if 0 ≤ q then q.floor else -((-q).floor))
  | .vStr s =>
    match pyIntStr? s with
    | some n => .ok n
    | none => .error (.valueError ("invalid literal for int() with base 10: \x27" ++ s ++ "\x27"))
  | .vNone => .error (.typeError "int() argument must be a string, not NoneType")

/-- Model of Python `float(v)` as a total partial-map (`none` when `float`
would raise `ValueError` or `TypeError`). -/
def pyFloatV? : Val → Option ℚ
  | .vInt n => some (n : ℚ)
  | .vRat q => some q
  | .vStr s => pyFloatStr? s
  | .vNone => none

/-- Model of Python `float(v)` with the raised error preserved. -/
def pyFloatV : Val → Except PyErr ℚ
  | .vInt n => .ok (n : ℚ)
  | .vRat q => .ok q
  | .vStr s =>
    match pyFloatStr? s with
    | some q => .ok q
    | none => .error (.valueError ("could not convert string to float: \x27" ++ s ++ "\x27"))
  | .vNone => .error (.typeError "float() argument must be a string or a real number, not NoneType")

/-- Model of Python `v.lower()`: only strings have the method
(`AttributeError`, modelled as a non-ValueError, otherwise). -/
def pyLowerV : Val → Except PyErr String
  | .vStr s => .ok (pyLowerStr s)
  | _ => .error (.typeError "object has no attribute lower")

/-- Require a string value, as Python `needle in v` does (`TypeError` when `v`
is not a string). -/
def valAsStr : Val → Except PyErr String
  | .vStr s => .ok s
  | _ => .error (.typeError "argument of type is not iterable")

/-- Model of a Python `try/except ValueError` around a computation: a
`ValueError` is swallowed (yielding `none`), other errors propagate. -/
def catchVE {α : Type} : Except PyErr α → Except PyErr (Option α)
  | .ok a => .ok (some a)
  | .error (.valueError _) => .ok none
  | .error e => .error e

/-- `parse_frame_rate` (media-inventory/file_processing.py lines 425-436):
normalize an `avg_frame_rate` value to a 3-decimal string or `"N/A"`. -/
def parse_frame_rate (frame_rate : Val) : String :=
  match frame_rate with
  | .vStr s =>
    if strHasSub ['/'] s.data then
      match pySplit '/' s with
      | [p, q] =>
        match pyIntStr? p, pyIntStr? q with
        | some num, some den => if den ≠ 0 then formatFix 3 ((num : ℚ) / (den : ℚ)) else "N/A"
        | _, _ => "N/A"
      | _ => "N/A"
    else if pyIsDigit (removeFirstDot s.data) then
      match pyFloatStr? s with
      | some q => formatFix 3 q
      | none => "N/A"
    else "N/A"
  | _ => "N/A"

/-- `detect_hdr` (file_processing.py lines 438-440). -/
def detect_hdr (color_transfer : Val) : String :=
  if pyInStr "smpte2084" (pyLowerStr (pyStr color_transfer))
      || pyInStr "hlg" (pyLowerStr (pyStr color_transfer)) then "Yes" else "No"

/-- `detect_bit_depth` (file_processing.py lines 442-444). -/
def detect_bit_depth (pix_fmt : Val) (bits_per_raw_sample : Val) : Val :=
  if pyInStr "10" (pyStr pix_fmt) then .vStr "10"
  else if !valEqS bits_per_raw_sample "N/A" then bits_per_raw_sample
  else .vStr "N/A"

/-- Embeds `calculate_transcode_speed_ratio` (media-inventory.py lines
234-244): divide the measured speed by the frame rate (default 24.0),
yielding `"Error"` on any conversion or zero-division failure. -/
def calc_transcode_speed_quot (transcode_speed : Val) (frame_rate : Val) : Val :=
  let fr : ℚ := match pyFloatV? frame_rate with | some q => q | none => 24
  match pyFloatV? transcode_speed with
  | none => .vStr "Error"
  | some s => if fr = 0 then .vStr "Error" else .vRat (s / fr)

/-- `get_transcode_speed_group` (media-inventory.py lines 246-260). -/
def get_transcode_speed_group (speed_quot : Val) : String :=
  if valEqS speed_quot "Error" then "Error"
  else
    match pyFloatV? speed_quot with
    | none => "Error"
    | some r => if r < 6 / 5 then "Failed" else if r < 2 then "Low" else if r < 3 then "Medium" else "High"

/-- One entry of a stream's `side_data_list` in a probe document. -/
structure SideData where
  side_data_type : Option Val := none
  dv_profile : Option Val := none
  deriving DecidableEq

/-- One stream of a probe document; `none` models a key absent from the JSON
object, so `stream.get(key, default)` and `get_json_value` fall back to their
sentinels. -/
structure MStream where
  codec_type : Option Val := none
  codec_name : Option Val := none
  codec_long_name : Option Val := none
  profile : Option Val := none
  level : Option Val := none
  width : Option Val := none
  height : Option Val := none
  color_space : Option Val := none
  color_primaries : Option Val := none
  color_transfer : Option Val := none
  color_range : Option Val := none
  chroma_location : Option Val := none
  field_order : Option Val := none
  refs : Option Val := none
  bits_per_raw_sample : Option Val := none
  pix_fmt : Option Val := none
  avg_frame_rate : Option Val := none
  channels : Option Val := none
  sample_rate : Option Val := none
  bit_rate : Option Val := none
  tags_language : Option Val := none
  tags_dovi : Option Val := none
  side_data_list : List SideData := []
  dv_profile : Option Val := none
  deriving DecidableEq

/-- The `format` section of a probe document. -/
structure FormatSec where
  duration : Option Val := none
  bit_rate : Option Val := none
  format_name : Option Val := none
  deriving DecidableEq

/-- A probe document: the JSON tree ffprobe prints, restricted to the keys the
pipeline reads. -/
structure ProbeDoc where
  format : Option FormatSec := none
  streams : List MStream := []
  deriving DecidableEq

/-- Filesystem facts about the input file (size, timestamps, path pieces);
external inputs of `extract_file_info`. -/
structure FileMeta where
  file : String := ""
  extension : String := ""
  path : String := ""
  filename : String := ""
  size : Int := 0
  creation_date : ℚ := 0
  modification_date : ℚ := 0
  deriving DecidableEq

/-- `get_json_value` fallback: a missing key resolves to `"N/A"`. -/
def getJV (o : Option Val) : Val := o.getD (.vStr "N/A")

/-- `stream.get('codec_type') == t` (missing key gives `None`, which never
equals a string). -/
def streamTypeIs (t : String) (s : MStream) : Bool :=
  match s.codec_type with
  | some v => valEqS v t
  | none => false

/-- The `codec_type == 'video'` streams of a document, in order. -/
def videoStreams (doc : ProbeDoc) : List MStream :=
  doc.streams.filter (streamTypeIs "video")

/-- The `codec_type == 'audio'` streams of a document, in order. -/
def audioStreams (doc : ProbeDoc) : List MStream :=
  doc.streams.filter (streamTypeIs "audio")

/-- The `codec_type == 'subtitle'` streams of a document, in order. -/
def subtitleStreams (doc : ProbeDoc) : List MStream :=
  doc.streams.filter (streamTypeIs "subtitle")

/-- `get_json_value(streams, '0.key')`: field `f` of the first stream, `"N/A"`
when the list is empty or the key is missing. -/
def getS0 (f : MStream → Option Val) (streams : List MStream) : Val :=
  match streams with
  | [] => .vStr "N/A"
  | s :: _ => getJV (f s)

/-- `get_json_value(details, 'format.key')`. -/
def getFmt (f : FormatSec → Option Val) (doc : ProbeDoc) : Val :=
  match doc.format with
  | none => .vStr "N/A"
  | some fs => getJV (f fs)

/-- Search a `side_data_list` for a `DOVI configuration record` entry
(file_processing.py lines 355-358). -/
def findDovi : List SideData → Option Val
  | [] => none
  | sd :: rest =>
    if valEqS (sd.side_data_type.getD .vNone) "DOVI configuration record" then
      some (sd.dv_profile.getD .vNone)
    else findDovi rest

/-- `detect_dolby_vision_profile` (file_processing.py lines 351-369):
side-data first, then `tags.DOVI_PROFILE`, then a direct `dv_profile` field;
first hit wins, absence gives `None`. -/
def detect_dolby_vision_profile : List MStream → Val
  | [] => .vNone
  | s :: rest =>
    match findDovi s.side_data_list with
    | some v => v
    | none =>
      match s.tags_dovi with
      | some v => v
      | none =>
        match s.dv_profile with
        | some v => v
        | none => detect_dolby_vision_profile rest

/-- The normalized video summary built by `extract_video_info`
(file_processing.py lines 86-112). -/
structure VideoInfo where
  codec : Val
  codec_long_name : Val
  profile : Val
  level : Val
  bitrate : Val
  width : Val
  height : Val
  color_space : Val
  color_primaries : Val
  color_transfer : Val
  color_range : Val
  chroma_location : Val
  field_order : Val
  refs : Val
  bits_per_raw_sample : Val
  pix_fmt : Val
  frame_rate : String
  stream_count : Val
  dolby_vision_profile : Val
  hdr : String
  bit_depth : Val
  deriving DecidableEq

/-- `extract_video_info` (file_processing.py lines 86-112).  Note that it
takes every scalar from the FIRST video stream and performs no multi-stream
folding. -/
def extract_video_info (doc : ProbeDoc) : VideoInfo :=
  let vs := videoStreams doc
  let ct := getS0 (·.color_transfer) vs
  let pf := getS0 (·.pix_fmt) vs
  let bprs := getS0 (·.bits_per_raw_sample) vs
  { codec := getS0 (·.codec_name) vs
    codec_long_name := getS0 (·.codec_long_name) vs
    profile := getS0 (·.profile) vs
    level := getS0 (·.level) vs
    bitrate := getFmt (·.bit_rate) doc
    width := getS0 (·.width) vs
    height := getS0 (·.height) vs
    color_space := getS0 (·.color_space) vs
    color_primaries := getS0 (·.color_primaries) vs
    color_transfer := ct
    color_range := getS0 (·.color_range) vs
    chroma_location := getS0 (·.chroma_location) vs
    field_order := getS0 (·.field_order) vs
    refs := getS0 (·.refs) vs
    bits_per_raw_sample := bprs
    pix_fmt := pf
    frame_rate := parse_frame_rate (getS0 (·.avg_frame_rate) vs)
    stream_count := .vInt (vs.length : Int)
    dolby_vision_profile := detect_dolby_vision_profile vs
    hdr := detect_hdr ct
    bit_depth := detect_bit_depth pf bprs }

/-- The per-file audio aggregate built by `extract_audio_info`
(file_processing.py lines 114-125). -/
structure AudioInfo where
  codecs : String
  codec_long_names : String
  channels : String
  sample_rates : String
  bitrates : String
  bit_depth : String
  stream_count : Val
  deriving DecidableEq

/-- `extract_audio_info` (file_processing.py lines 114-125). -/
def extract_audio_info (doc : ProbeDoc) : AudioInfo :=
  let as' := audioStreams doc
  { codecs := joinSep ", " (as'.map (fun s => pyStr (getJV s.codec_name)))
    codec_long_names := joinSep ", " (as'.map (fun s => pyStr (getJV s.codec_long_name)))
    channels := joinSep ", " (as'.map (fun s => pyStr (getJV s.channels)))
    sample_rates := joinSep ", " (as'.map (fun s => pyStr (getJV s.sample_rate)))
    bitrates := joinSep ", " (as'.map (fun s => pyStr (getJV s.bit_rate)))
    bit_depth := joinSep ", " (as'.map (fun s => pyStr (getJV s.bits_per_raw_sample)))
    stream_count := .vInt (as'.length : Int) }

/-- The per-file subtitle aggregate built by `extract_subtitle_info`
(file_processing.py lines 127-134). -/
structure SubtitleInfo where
  languages : String
  formats : String
  stream_count : Val
  deriving DecidableEq

/-- `extract_subtitle_info` (file_processing.py lines 127-134). -/
def extract_subtitle_info (doc : ProbeDoc) : SubtitleInfo :=
  let ss := subtitleStreams doc
  { languages := joinSep ", " (ss.map (fun s => pyStr (getJV s.tags_language)))
    formats := joinSep ", " (ss.map (fun s => pyStr (getJV s.codec_name)))
    stream_count := .vInt (ss.length : Int) }

/-- Basic file information built by `extract_file_info`
(file_processing.py lines 72-84); `duration` is
`float(get_json_value(details, 'format.duration', 0))`, so a missing duration
becomes `0.0` and a non-numeric one raises. -/
structure FileInfo where
  file : String
  extension : String
  path : String
  filename : String
  size : Int
  creation_date : ℚ
  modification_date : ℚ
  container_format : Val
  duration : ℚ
  deriving DecidableEq

/-- `extract_file_info` (file_processing.py lines 72-84). -/
def extract_file_info (fm : FileMeta) (doc : ProbeDoc) : Except PyErr FileInfo := do
  let dv : Val :=
    match doc.format with
    | none => .vInt 0
    | some fs => fs.duration.getD (.vInt 0)
  let d ← pyFloatV dv
  pure
    { file := fm.file
      extension := fm.extension
      path := fm.path
      filename := fm.filename
      size := fm.size
      creation_date := fm.creation_date
      modification_date := fm.modification_date
      container_format := getFmt (·.format_name) doc
      duration := d }

/-- The 19 named issue flags of `detect_issues` (file_processing.py lines
138-158), in dictionary insertion order. -/
structure IssueSet where
  unknownMetadata : Bool
  nonStandardVideoCodec : Bool
  nonStandardAudioCodec : Bool
  problematicSubtitleFormat : Bool
  highBitrate : Bool
  lowBitrate : Bool
  nonStandardResolution : Bool
  nonStandardFrameRate : Bool
  highBitDepth : Bool
  hdrContent : Bool
  fourKContent : Bool
  complexVideoProfile : Bool
  variableFrameRate : Bool
  interlacedContent : Bool
  highSubtitleStreamCount : Bool
  uncommonContainerFormat : Bool
  veryHighBitrate : Bool
  multipleAudioStreams : Bool
  dolbyVisionProfile5 : Bool
  deriving DecidableEq

/-- `standard_video_codecs` (file_processing.py line 167). -/
def standard_video_codecs : List String := ["h264", "hevc", "vp9", "av1"]

/-- `standard_audio_codecs` (file_processing.py line 173). -/
def standard_audio_codecs : List String := ["aac", "ac3", "eac3", "mp3", "opus"]

/-- `problematic_subtitle_formats` (file_processing.py line 181). -/
def problematic_subtitle_formats : List String :=
  ["dvd_subtitle", "hdmv_pgs_subtitle", "dvb_subtitle"]

/-- The standard frame-rate whitelist (file_processing.py line 216). -/
def standardFrameRates : List ℚ :=
  [23976 / 1000, 24, 25, 2997 / 100, 30, 50, 5994 / 100, 60]

/-- The standard resolution whitelist (file_processing.py line 205). -/
def standardResolutions : List (Int × Int) :=
  [(1920, 1080), (3840, 2160), (1280, 720), (720, 480), (720, 576)]

/-- `common_containers` (file_processing.py line 267). -/
def common_containers : List String := ["matroska", "mov", "mp4", "avi", "mpegts"]

/-- The rule bodies of `detect_issues` (file_processing.py lines 136-299):
a pure function of the inputs and of the pre-computed fallible conversions
(`codecLower` = `codec.lower()`, `prof` = the profile string, `br1`/`br2` =
the two `int(bitrate)` attempts, `wh` = `int(width), int(height)`, `subc` and
`ac` = the parsed stream counts; `none` records a swallowed `ValueError`).
Returns the flag set together with the description list in append order. -/
def detect_issues_core (file_info : FileInfo) (video_info : VideoInfo)
    (audio_info : AudioInfo) (subtitle_info : SubtitleInfo)
    (codecLower : String) (prof : String)
    (br1 : Option Int) (wh : Option (Int × Int)) (subc : Option Int)
    (br2 : Option Int) (ac : Option Int) : IssueSet × List String :=
  let unknown1 := is_empty_or_na video_info.codec || is_empty_or_na (.vStr audio_info.codecs)
    || is_empty_or_na (.vStr subtitle_info.formats)
  let d1 := if unknown1 then ["Some file information couldn\x27t be determined"] else []
  let nonStdV := !standard_video_codecs.contains codecLower
  let d2 := if nonStdV then ["Non-standard video codec: " ++ pyStr video_info.codec] else []
  let audioCodecList := (pySplit ',' audio_info.codecs).map (fun x => pyLowerStr (pyStrip x))
  let nonStdAudio := audioCodecList.filter (fun x => !standard_audio_codecs.contains x)
  let flagAudio := !nonStdAudio.isEmpty
  let d3 := if flagAudio then ["Non-standard audio codec(s): " ++ joinSep ", " nonStdAudio] else []
  let subFmtList := (pySplit ',' subtitle_info.formats).map (fun x => pyLowerStr (pyStrip x))
  let problematicSubs := subFmtList.filter (fun x => problematic_subtitle_formats.contains x)
  let flagSubs := !problematicSubs.isEmpty
  let d4 := if flagSubs then
    ["Potentially problematic subtitle format(s): " ++ joinSep ", " problematicSubs] else []
  let (highBr, lowBr, brUnk1, d5) :=
    match br1 with
    | some b =>
      if b > 20000000 then
        (true, false, false,
          ["High bitrate (" ++ formatFix 2 ((b : ℚ) / 1000000) ++ " Mbps) may cause buffering"])
      else if b < 1000000 then
        (false, true, false,
          ["Low bitrate (" ++ formatFix 2 ((b : ℚ) / 1000000) ++ " Mbps) may result in poor quality"])
      else (false, false, false, [])
    | none =>
      (false, false, !is_empty_or_na video_info.bitrate,
        if is_empty_or_na video_info.bitrate then []
        else ["Unable to parse bitrate: " ++ pyStr video_info.bitrate])
  let (nonStdRes, resUnk, d6) :=
    match wh with
    | some (w, h) =>
      if !standardResolutions.contains (w, h) then
        (true, false, ["Non-standard resolution: " ++ intRepr w ++ "x" ++ intRepr h])
      else (false, false, [])
    | none =>
      (false, !(is_empty_or_na video_info.width || is_empty_or_na video_info.height),
        if is_empty_or_na video_info.width || is_empty_or_na video_info.height then []
        else
          ["Unable to parse resolution: " ++ pyStr video_info.width ++ "x"
            ++ pyStr video_info.height])
  let (nonStdFps, frUnk, d7) :=
    match pyFloatStr? video_info.frame_rate with
    | some fps =>
      if !standardFrameRates.contains fps then
        (true, false, ["Non-standard frame rate: " ++ pyFloatRepr fps ++ " fps"])
      else (false, false, [])
    | none =>
      (false, !is_empty_or_na (.vStr video_info.frame_rate),
        if is_empty_or_na (.vStr video_info.frame_rate) then []
        else ["Unable to parse frame rate: " ++ video_info.frame_rate])
  let highDepth := !(valEqS video_info.bit_depth "8" || valEqS video_info.bit_depth "N/A")
  let d8 := if highDepth then
    ["High bit depth video: " ++ pyStr video_info.bit_depth ++ "-bit"] else []
  let isHdr := video_info.hdr = "Yes"
  let d9 := if isHdr then ["HDR content may require tone-mapping"] else []
  let fourK := valEqS video_info.width "3840" && valEqS video_info.height "2160"
  let d10 := if fourK then ["4K content may be demanding to transcode"] else []
  let complexProf := pyInStr "High 4:2:2" prof || pyInStr "High 4:4:4" prof
  let d11 := if complexProf then ["Complex video profile: " ++ prof] else []
  let vfr := pyInStr "," video_info.frame_rate || pyInStr "/" video_info.frame_rate
  let d12 := if vfr then ["Possibly variable frame rate"] else []
  let interlaced := !(valEqS video_info.field_order "progressive"
    || valEqS video_info.field_order "N/A")
  let d13 := if interlaced then
    ["Interlaced content: " ++ pyStr video_info.field_order] else []
  let (highSubs, subUnk, d14) :=
    match subc with
    | some c =>
      if c > 5 then (true, false, ["High number of subtitle streams: " ++ intRepr c])
      else (false, false, [])
    | none =>
      (false, !is_empty_or_na subtitle_info.stream_count,
        if is_empty_or_na subtitle_info.stream_count then []
        else ["Unable to parse subtitle stream count: " ++ pyStr subtitle_info.stream_count])
  let cfLower := pyLowerStr (pyStr file_info.container_format)
  let uncommon := !common_containers.any (fun cf => pyInStr cf cfLower)
  let d15 := if uncommon then
    ["Less common container format: " ++ pyStr file_info.container_format] else []
  let (veryHigh, brUnk2, d16) :=
    match br2 with
    | some b =>
      if b > 100000000 then
        (true, false,
          ["Very high bitrate (" ++ formatFix 2 ((b : ℚ) / 1000000) ++ " Mbps) may slow transcoding"])
      else (false, false, [])
    | none =>
      (false, !is_empty_or_na video_info.bitrate,
        if is_empty_or_na video_info.bitrate then []
        else ["Unable to parse bitrate: " ++ pyStr video_info.bitrate])
  let (multiAudio, acUnk, d17) :=
    match ac with
    | some c =>
      if c > 3 then (true, false, ["Multiple audio streams: " ++ intRepr c])
      else (false, false, [])
    | none =>
      (false, !is_empty_or_na audio_info.stream_count,
        if is_empty_or_na audio_info.stream_count then []
        else ["Unable to parse audio stream count: " ++ pyStr audio_info.stream_count])
  let dv5 := valEqI video_info.dolby_vision_profile 5
  let d18 := if dv5 then ["Dolby Vision Profile 5 detected (unplayable in Plex)"] else []
  ({ unknownMetadata := unknown1 || brUnk1 || resUnk || frUnk || subUnk || brUnk2 || acUnk
     nonStandardVideoCodec := nonStdV
     nonStandardAudioCodec := flagAudio
     problematicSubtitleFormat := flagSubs
     highBitrate := highBr
     lowBitrate := lowBr
     nonStandardResolution := nonStdRes
     nonStandardFrameRate := nonStdFps
     highBitDepth := highDepth
     hdrContent := isHdr
     fourKContent := fourK
     complexVideoProfile := complexProf
     variableFrameRate := vfr
     interlacedContent := interlaced
     highSubtitleStreamCount := highSubs
     uncommonContainerFormat := uncommon
     veryHighBitrate := veryHigh
     multipleAudioStreams := multiAudio
     dolbyVisionProfile5 := dv5 },
   d1 ++ d2 ++ d3 ++ d4 ++ d5 ++ d6 ++ d7 ++ d8 ++ d9 ++ d10 ++ d11 ++ d12 ++ d13 ++ d14
     ++ d15 ++ d16 ++ d17 ++ d18)

/-- `int(width), int(height)` as one computation: the first error wins, as in
the Python tuple assignment (file_processing.py line 204). -/
def pyIntV2 (w h : Val) : Except PyErr (Int × Int) := do
  let wi ← pyIntV w
  let hi ← pyIntV h
  pure (wi, hi)

/-- `detect_issues` (file_processing.py lines 136-299).  The fallible
conversions appear in source order; a `ValueError` inside a guarded block is
swallowed (`catchVE`) while a `TypeError`/`AttributeError` escapes the
function, exactly as the bare `except ValueError` handlers behave. -/
def detect_issues (file_info : FileInfo) (video_info : VideoInfo)
    (audio_info : AudioInfo) (subtitle_info : SubtitleInfo) :
    Except PyErr (IssueSet × List String) := do
  let codecLower ← pyLowerV video_info.codec
  let br1 ← catchVE (pyIntV video_info.bitrate)
  let wh ← catchVE (pyIntV2 video_info.width video_info.height)
  let prof ← valAsStr video_info.profile
  let subc ← catchVE (pyIntV subtitle_info.stream_count)
  let br2 ← catchVE (pyIntV video_info.bitrate)
  let ac ← catchVE (pyIntV audio_info.stream_count)
  pure (detect_issues_core file_info video_info audio_info subtitle_info
    codecLower prof br1 wh subc br2 ac)

/-- Observable behaviour of one external transcoder subprocess: the wall-clock
time until it exits (`none` = it never exits on its own), its exit code, and
its diagnostic-stream text. -/
structure Proc where
  exitTime : Option ℚ := none
  code : Int := 0
  stderr : String := ""
  deriving DecidableEq

/-- Strip an expected character sequence from the head of a list. -/
def dropPre : List Char → List Char → Option (List Char)
  | [], l => some l
  | _ :: _, [] => none
  | p :: ps, c :: cs => if c = p then dropPre ps cs else none

/-- Try to match the regex `speed=\s*([\d.]+)x` at the head of the input
(file_processing.py line 520).  `none` means the regex does not match here;
`some (some q)` means it matches and `float` converts the capture to `q`;
`some none` means it matches but `float(group(1))` raises `ValueError`
(e.g. a capture of only dots or with two dots). -/
def matchSpeedAt (l : List Char) : Option (Option ℚ) :=
  match dropPre "speed=".data l with
  | none => none
  | some r =>
    let r2 := r.dropWhile isSpaceCh
    let cap := r2.takeWhile (fun c => isDigitCh c || c = '.')
    let rest := r2.dropWhile (fun c => isDigitCh c || c = '.')
    if cap.isEmpty then none
    else
      match rest with
      | 'x' :: _ => some (pyFloatStr? ⟨cap⟩)
      | _ => none

/-- `re.search` of the speed pattern: the leftmost regex match wins, whether
or not its capture converts; later positions are only tried while the regex
itself has not matched. -/
def findSpeedToken : List Char → Option (Option ℚ)
  | [] => none
  | c :: cs =>
    match matchSpeedAt (c :: cs) with
    | some r => some r
    | none => findSpeedToken cs

/-- `simulate_plex_transcoding` (file_processing.py lines 455-533), with the
polling loop abstracted over the subprocess behaviour: the loop polls the
process before checking the clock, so the run is reported `"Aborted"` exactly
when the process is still running after `duration + 5` seconds.  On a clean
exit the diagnostic stream is searched for the speed pattern: a converted
capture is returned as the speed, no regex match gives `"N/A"`, and a
matched-but-unconvertible capture makes `float` raise `ValueError`, which the
enclosing blanket `except Exception` turns into `"Error"`.  A non-zero exit
gives `"Error"`. -/
def simulate_plex_transcoding (duration : ℚ) (p : Proc) : Val :=
  match p.exitTime with
  | none => .vStr "Aborted"
  | some t =>
    if t > duration + 5 then .vStr "Aborted"
    else if p.code = 0 then
      match findSpeedToken p.stderr.data with
      | some (some q) => .vRat q
      | some none => .vStr "Error"
      | none => .vStr "N/A"
    else .vStr "Error"

/-- The sample start offsets of `simulate_transcoding` (file_processing.py
line 331): sample 0 starts at 0, later samples at the value drawn by
`random.uniform(0, max(0, file_duration - sample_duration))`. -/
def sample_offsets (draw : Nat → ℚ) (i : Nat) : ℚ :=
  if i = 0 then 0 else draw i

/-- The body of one iteration of the sampling loop (file_processing.py lines
330-347): abort maps to `("<1", "<1", "Low")`, anything else is paired with
its speed quotient and tier. -/
def sample_result (sample_duration : ℚ) (frame_rate : String) (p : Proc) :
    Val × Val × Val :=
  let speed := simulate_plex_transcoding sample_duration p
  if valEqS speed "Aborted" then (Val.vStr "<1", Val.vStr "<1", Val.vStr "Low")
  else
    let r := calc_transcode_speed_quot speed (.vStr frame_rate)
    (speed, r, Val.vStr (get_transcode_speed_group r))

/-- `simulate_transcoding` (file_processing.py lines 301-349), with the
random draws and the subprocess behaviours supplied as oracles.  Returns the
three appended lists (speeds, speed quotients, speed groups). -/
def simulate_transcoding (file_duration : ℚ) (user_duration : Option ℚ)
    (samples : Nat) (frame_rate : String) (draw : Nat → ℚ) (procs : Nat → Proc) :
    List Val × List Val × List Val :=
  match user_duration with
  | none => ([], [], [])
  | some ud =>
    let sample_duration := min ud file_duration
    if sample_duration ≤ 0 then ([], [], [])
    else
      let res := (List.range samples).map (fun i =>
        let start_time := sample_offsets draw i
        sample_result sample_duration frame_rate (procs i))
      (res.map (·.1), res.map (·.2.1), res.map (·.2.2))

/-- The issue flags as the strings `str(int(issues[key]))`, in dictionary
order (file_processing.py line 392). -/
def issueFlagStrs (is' : IssueSet) : List String :=
  [is'.unknownMetadata, is'.nonStandardVideoCodec, is'.nonStandardAudioCodec,
   is'.problematicSubtitleFormat, is'.highBitrate, is'.lowBitrate,
   is'.nonStandardResolution, is'.nonStandardFrameRate, is'.highBitDepth,
   is'.hdrContent, is'.fourKContent, is'.complexVideoProfile,
   is'.variableFrameRate, is'.interlacedContent, is'.highSubtitleStreamCount,
   is'.uncommonContainerFormat, is'.veryHighBitrate, is'.multipleAudioStreams,
   is'.dolbyVisionProfile5].map (fun b => if b then "1" else "0")

/-- `any(issues.values())` (file_processing.py line 390). -/
def issueAny (is' : IssueSet) : Bool :=
  is'.unknownMetadata || is'.nonStandardVideoCodec || is'.nonStandardAudioCodec
  || is'.problematicSubtitleFormat || is'.highBitrate || is'.lowBitrate
  || is'.nonStandardResolution || is'.nonStandardFrameRate || is'.highBitDepth
  || is'.hdrContent || is'.fourKContent || is'.complexVideoProfile
  || is'.variableFrameRate || is'.interlacedContent || is'.highSubtitleStreamCount
  || is'.uncommonContainerFormat || is'.veryHighBitrate || is'.multipleAudioStreams
  || is'.dolbyVisionProfile5

/-- `compile_results` (file_processing.py lines 371-392): the 40 fixed fields,
then the 19 issue-flag strings, then the three transcode lists. -/
def compile_results (file_info : FileInfo) (video_info : VideoInfo)
    (audio_info : AudioInfo) (subtitle_info : SubtitleInfo)
    (issues : IssueSet) (issue_descriptions : List String)
    (transcode_results : List Val × List Val × List Val)
    (concat_separator : String) : List Val :=
  let (transcode_speeds, transcode_quots, transcode_groups) := transcode_results
  ([.vStr file_info.file, .vStr file_info.extension, .vStr file_info.path,
    .vStr file_info.filename,
    .vInt file_info.size, file_info.container_format,
    video_info.codec, video_info.codec_long_name, video_info.profile, video_info.level,
    video_info.bitrate, video_info.width, video_info.height,
    video_info.color_space, video_info.color_primaries, video_info.color_transfer,
    video_info.color_range, video_info.chroma_location,
    video_info.field_order, video_info.refs, video_info.bits_per_raw_sample,
    video_info.pix_fmt, .vStr video_info.hdr, video_info.bit_depth,
    .vRat file_info.duration, .vStr video_info.frame_rate,
    .vStr audio_info.codecs, .vStr audio_info.codec_long_names, .vStr audio_info.channels,
    .vStr audio_info.sample_rates, .vStr audio_info.bitrates, .vStr audio_info.bit_depth,
    audio_info.stream_count,
    .vStr subtitle_info.languages, .vStr subtitle_info.formats, subtitle_info.stream_count,
    .vRat file_info.creation_date, .vRat file_info.modification_date,
    .vStr (if issueAny issues then "1" else "0"),
    .vStr (if issue_descriptions.isEmpty then "None"
           else joinSep concat_separator (pySort issue_descriptions))] : List Val)
    ++ (issueFlagStrs issues).map .vStr ++ transcode_speeds ++ transcode_quots
    ++ transcode_groups

/-- `process_file` (file_processing.py lines 17-55): probe failure or a
non-positive duration short-circuits with `["Error"] * 40`; otherwise the
classifiers, the issue detector and (for `samples > 0`) the transcode sampler
feed `compile_results`. -/
def process_file (fm : FileMeta) (probe : Option ProbeDoc)
    (user_duration : Option ℚ) (samples : Nat)
    (draw : Nat → ℚ) (procs : Nat → Proc) (concat_separator : String) :
    Except PyErr (List Val) := do
  match probe with
  | none => pure (List.replicate 40 (Val.vStr "Error"))
  | some details =>
    let file_info ← extract_file_info fm details
    let video_info := extract_video_info details
    let audio_info := extract_audio_info details
    let subtitle_info := extract_subtitle_info details
    if file_info.duration ≤ 0 then
      pure (List.replicate 40 (Val.vStr "Error"))
    else do
      let (issues, issue_descriptions) ←
        detect_issues file_info video_info audio_info subtitle_info
      let transcode_results :=
        if samples > 0 then
          simulate_transcoding file_info.duration user_duration samples
            video_info.frame_rate draw procs
        else ([], [], [])
      pure (compile_results file_info video_info audio_info subtitle_info issues
        issue_descriptions transcode_results concat_separator)

/-- The video summary fields of the top-level `media-inventory.py`
`process_file` (lines 276-299): the first video stream's codec,
codec_long_name, profile and level, folded with a `" (+{count-1})"` suffix
when more than one video stream exists. -/
def mono_video_fields (doc : ProbeDoc) : Val × Val × Val × Val :=
  let vs := videoStreams doc
  let codec := getS0 (·.codec_name) vs
  let codecLong := getS0 (·.codec_long_name) vs
  let prof := getS0 (·.profile) vs
  let lev := getS0 (·.level) vs
  let n := vs.length
  if n > 1 then
    (.vStr (pyStr codec ++ " (+" ++ natRepr (n - 1) ++ ")"),
     .vStr (pyStr codecLong ++ " (+" ++ natRepr (n - 1) ++ ")"),
     .vStr (pyStr prof ++ " (+" ++ natRepr (n - 1) ++ ")"),
     .vStr (pyStr lev ++ " (+" ++ natRepr (n - 1) ++ ")"))
  else (codec, codecLong, prof, lev)

/-- `safe_float` (media-inventory/utils.py lines 94-108): conversion failures
fall back to the default `0.0`. -/
def safe_float (v : Val) : ℚ := (pyFloatV? v).getD 0

/-- Python `int(float)`: truncation toward zero. -/
def truncQ (q : ℚ) : Int := if 0 ≤ q then q.floor else -((-q).floor)

/-- A `collections.Counter` over keys of type `α`, modelled as its count
function. -/
def bump {α : Type} [DecidableEq α] (c : α → Nat) (k : α) : α → Nat :=
  fun x => if x = k then c x + 1 else c x

/-- `Counter.update(iterable)`: one increment per element. -/
def bumpAll {α : Type} [DecidableEq α] (c : α → Nat) (ks : List α) : α → Nat :=
  ks.foldl bump c

/-- `RESOLUTION_CATEGORIES` (media-inventory/config.py lines 79-86), in
dictionary insertion order. -/
def resolutionCategories : List (String × Int × Int) :=
  [("8K", 7680, 4320), ("4K", 3840, 2160), ("1080p", 1920, 1080),
   ("720p", 1280, 720), ("480p", 720, 480), ("SD", 0, 0)]

/-- `MAX_AUDIO_STREAMS` (media-inventory/config.py line 92). -/
def maxAudioStreams : Int := 4

/-- One metadata record consumed by `generate_statistics`, with the keys the
per-record loop reads (produced upstream by `get_video_metadata`). -/
structure StatRecord where
  file : String := "Unknown"
  containerFormat : String := ""
  videoCodec : String := ""
  bits : String := ""
  colorSpace : String := ""
  hdr : String := ""
  width : Val := .vStr ""
  height : Val := .vStr ""
  audioStreamCount : Val := .vStr ""
  audioLanguages : String := ""
  audioChannels : String := ""
  audioChannelLayouts : String := ""
  audioCodecs : String := ""
  subStreamCount : Val := .vStr ""
  subLanguagesInFile : String := ""
  subFormatsInFile : String := ""
  subsInFileAndFolder : Option String := none
  deriving DecidableEq

/-- The statistics accumulated by the per-record loop of
`generate_statistics` (media-inventory/script_statistics.py lines 25-145). -/
structure Stats where
  file_formats : String → Nat := fun _ => 0
  video_codecs : String → Nat := fun _ => 0
  video_bits : String → Nat := fun _ => 0
  color_spaces : String → Nat := fun _ => 0
  hdr_count : Nat := 0
  sdr_count : Nat := 0
  resolutions : String → Nat := fun _ => 0
  resolution_categories : String → Nat := fun _ => 0
  soundtrack_counts : Int → Nat := fun _ => 0
  language_counts : Int → Nat := fun _ => 0
  commentary_tracks : Nat := 0
  languages : String → Nat := fun _ => 0
  single_language_files : String → Nat := fun _ => 0
  channel_formats : String → Nat := fun _ => 0
  channel_layouts : String → Nat := fun _ => 0
  audio_formats : String → Nat := fun _ => 0
  sub_total_count : Int := 0
  sub_in_file_languages : String → Nat := fun _ => 0
  sub_in_file_formats : String → Nat := fun _ => 0
  sub_in_folder_languages : String → Nat := fun _ => 0
  sub_combined_languages : String → Nat := fun _ => 0
  missing_subtitles : Nat := 0
  missing_eng_subtitles : Nat := 0
  missing_nor_subtitles : Nat := 0
  forced_subtitles : Nat := 0
  errors : List String := []

/-- The infallible leading statements of the per-record loop
(script_statistics.py lines 87-103): file/video counters and resolution
buckets, none of which can raise. -/
def statsStepA (st : Stats) (m : StatRecord) : Stats :=
  let w := truncQ (safe_float m.width)
  let h := truncQ (safe_float m.height)
  let st :=
    { st with
      file_formats := bump st.file_formats m.containerFormat
      video_codecs := bump st.video_codecs m.videoCodec
      video_bits := bump st.video_bits m.bits
      color_spaces := bump st.color_spaces m.colorSpace
      hdr_count := st.hdr_count + (if m.hdr = "Yes" then 1 else 0)
      sdr_count := st.sdr_count + (if m.hdr = "No" then 1 else 0)
      resolutions := bump st.resolutions (intRepr w ++ "x" ++ intRepr h) }
  match resolutionCategories.find? (fun t => decide (t.2.1 ≤ w) && decide (t.2.2 ≤ h)) with
  | some t => { st with resolution_categories := bump st.resolution_categories t.1 }
  | none => st

/-- The audio statements of the per-record loop (script_statistics.py lines
106-123), run after `int(m['Audio Stream Count'])` succeeded with value
`sc`. -/
def statsStepB (st : Stats) (m : StatRecord) (sc : Int) : Stats :=
  let langs := ((pySplit ',' m.audioLanguages).map pyStrip).dedup
  let langCount : Int := (langs.length : Int)
  let st :=
    { st with
      soundtrack_counts := bump st.soundtrack_counts (min sc maxAudioStreams)
      language_counts := bump st.language_counts (min langCount maxAudioStreams)
      commentary_tracks := st.commentary_tracks
        + (if pyInStr "commentary" (pyLowerStr m.audioLanguages) then 1 else 0)
      languages := bumpAll st.languages langs }
  let st :=
    match langs with
    | [only] => { st with single_language_files := bump st.single_language_files only }
    | _ => st
  { st with
    channel_formats := bumpAll st.channel_formats
      (((pySplit ',' m.audioChannels).map pyStrip).dedup)
    channel_layouts := bumpAll st.channel_layouts
      (((pySplit ',' m.audioChannelLayouts).map pyStrip).dedup)
    audio_formats := bumpAll st.audio_formats
      (((pySplit ',' m.audioCodecs).map pyStrip).dedup) }

/-- The subtitle statements of the per-record loop (script_statistics.py
lines 126-142), run after `int(m['Subtitle stream count in file'])` succeeded
with value `subc`. -/
def statsStepC (st : Stats) (m : StatRecord) (subc : Int) : Stats :=
  let folder := m.subsInFileAndFolder.getD ""
  let inFileLangs := ((pySplit ',' m.subLanguagesInFile).map pyStrip).filter (· ≠ "")
  let inFileFmts := ((pySplit ',' m.subFormatsInFile).map pyStrip).filter (· ≠ "")
  let folderLangs := ((pySplit ',' folder).map pyStrip).filter (· ≠ "")
  let combined := ((pySplit ',' (m.subLanguagesInFile ++ "," ++ folder)).map pyStrip).filter (· ≠ "")
  { st with
    sub_total_count := st.sub_total_count + subc
    sub_in_file_languages := bumpAll st.sub_in_file_languages inFileLangs
    sub_in_file_formats := bumpAll st.sub_in_file_formats inFileFmts
    sub_in_folder_languages := bumpAll st.sub_in_folder_languages folderLangs
    sub_combined_languages := bumpAll st.sub_combined_languages combined
    missing_subtitles := st.missing_subtitles
      + (if valEqS m.subStreamCount "0" && folder = "" then 1 else 0)
    missing_eng_subtitles := st.missing_eng_subtitles
      + (if !pyInStr "eng" m.subLanguagesInFile && !pyInStr "en" m.subLanguagesInFile
            && !pyInStr "eng" folder && !pyInStr "en" folder then 1 else 0)
    missing_nor_subtitles := st.missing_nor_subtitles
      + (if !pyInStr "nor" m.subLanguagesInFile && !pyInStr "no" m.subLanguagesInFile
            && !pyInStr "nor" folder && !pyInStr "no" folder then 1 else 0)
    forced_subtitles := st.forced_subtitles
      + (if pyInStr "forced" (pyLowerStr m.subLanguagesInFile)
            || pyInStr "forced" (pyLowerStr folder) then 1 else 0) }

/-- The error line appended by the `except Exception` handler
(script_statistics.py line 145). -/
def statsErrMsg (m : StatRecord) (e : PyErr) : String :=
  "Error processing file " ++ m.file ++ ": "
    ++ (match e with | .valueError msg => msg | .typeError msg => msg)

/-- One iteration of the per-record loop of `generate_statistics`
(script_statistics.py lines 84-145): the statements run in order inside one
`try`; the first raising statement stops the rest of THIS record's
statements, keeps the mutations already applied, and appends one error
line. -/
def processRecord (st : Stats) (m : StatRecord) : Stats :=
  let st1 := statsStepA st m
  match pyIntV m.audioStreamCount with
  | .error e => { st1 with errors := st1.errors ++ [statsErrMsg m e] }
  | .ok sc =>
    let st2 := statsStepB st1 m sc
    match pyIntV m.subStreamCount with
    | .error e => { st2 with errors := st2.errors ++ [statsErrMsg m e] }
    | .ok subc => statsStepC st2 m subc

/-- The per-record fold of `generate_statistics` (script_statistics.py lines
84-145); the post-loop summary blocks use `safe_float`/`safe_decimal` and
their own handlers and are not part of the per-record fold the fold-failure
contract concerns. -/
def generate_statistics (metadata_list : List StatRecord) : Stats :=
  metadata_list.foldl processRecord {}

/-- A neutral file-metadata record for concrete runs. -/
def exMeta : FileMeta := {}

/-- The end-to-end scenario-1 probe document: matroska container, one h264
1920x1080 video stream at 24000/1001 fps, no audio or subtitle streams. -/
def exDoc1 : ProbeDoc :=
  { format := some
      { duration := some (.vStr "120.5")
        bit_rate := some (.vStr "5000000")
        format_name := some (.vStr "matroska,webm") }
    streams :=
      [{ codec_type := some (.vStr "video")
         codec_name := some (.vStr "h264")
         width := some (.vStr "1920")
         height := some (.vStr "1080")
         avg_frame_rate := some (.vStr "24000/1001")
         color_transfer := some (.vStr "bt709")
         pix_fmt := some (.vStr "yuv420p") }] }

/-- The file information `extract_file_info` produces for `exDoc1`. -/
def exFi1 : FileInfo :=
  { file := "", extension := "", path := "", filename := "", size := 0
    creation_date := 0, modification_date := 0
    container_format := .vStr "matroska,webm", duration := 241 / 2 }

/-- The issue flags scenario 1 actually produces: the empty audio/subtitle
join strings trip the unknown-metadata and audio-codec rules. -/
def exIssues1 : IssueSet :=
  { unknownMetadata := true
    nonStandardVideoCodec := false
    nonStandardAudioCodec := true
    problematicSubtitleFormat := false
    highBitrate := false
    lowBitrate := false
    nonStandardResolution := false
    nonStandardFrameRate := false
    highBitDepth := false
    hdrContent := false
    fourKContent := false
    complexVideoProfile := false
    variableFrameRate := false
    interlacedContent := false
    highSubtitleStreamCount := false
    uncommonContainerFormat := false
    veryHighBitrate := false
    multipleAudioStreams := false
    dolbyVisionProfile5 := false }

/-- The description list scenario 1 actually produces, in append order. -/
def exDescs1 : List String :=
  ["Some file information couldn\x27t be determined",
   "Non-standard audio codec(s): "]

/-- A probe document with two video streams (for the multi-stream folding
claim). -/
def exDoc2 : ProbeDoc :=
  { streams :=
      [{ codec_type := some (.vStr "video")
         codec_name := some (.vStr "h264")
         codec_long_name := some (.vStr "H.264")
         profile := some (.vStr "High")
         level := some (.vInt 40) },
       { codec_type := some (.vStr "video")
         codec_name := some (.vStr "hevc") }] }

/-- A plain file-information record for direct issue-detector runs. -/
def exFiPlain : FileInfo :=
  { file := "", extension := "", path := "", filename := "", size := 0
    creation_date := 0, modification_date := 0
    container_format := .vStr "matroska", duration := 100 }

/-- A video summary whose width and height are the INTEGERS 3840 and 2160,
as ffprobe emits them in JSON. -/
def exVi3 : VideoInfo :=
  { codec := .vStr "hevc", codec_long_name := .vStr "N/A", profile := .vStr "Main 10"
    level := .vStr "N/A", bitrate := .vStr "8000000"
    width := .vInt 3840, height := .vInt 2160
    color_space := .vStr "N/A", color_primaries := .vStr "N/A"
    color_transfer := .vStr "bt709", color_range := .vStr "N/A"
    chroma_location := .vStr "N/A", field_order := .vStr "progressive"
    refs := .vStr "N/A", bits_per_raw_sample := .vStr "N/A"
    pix_fmt := .vStr "yuv420p10le", frame_rate := "23.976"
    stream_count := .vInt 1, dolby_vision_profile := .vNone
    hdr := "No", bit_depth := .vStr "10" }

/-- A benign audio summary. -/
def exAi3 : AudioInfo :=
  { codecs := "aac", codec_long_names := "AAC", channels := "6"
    sample_rates := "48000", bitrates := "640000", bit_depth := "N/A"
    stream_count := .vInt 1 }

/-- A benign subtitle summary. -/
def exSi3 : SubtitleInfo :=
  { languages := "eng", formats := "subrip", stream_count := .vInt 1 }

/-- A probe document whose single video stream has no `avg_frame_rate`, so the
classifier's frame rate is the sentinel `"N/A"`. -/
def exDoc4 : ProbeDoc :=
  { streams :=
      [{ codec_type := some (.vStr "video")
         codec_name := some (.vStr "h264")
         width := some (.vInt 1920)
         height := some (.vInt 1080) }] }

/-- A video summary whose five numeric-ish fields are all unparseable
strings (for the unknown-metadata safety claim). -/
def exVi8 : VideoInfo :=
  { codec := .vStr "h264", codec_long_name := .vStr "N/A", profile := .vStr "Main"
    level := .vStr "N/A", bitrate := .vStr "abc"
    width := .vStr "wide", height := .vStr "tall"
    color_space := .vStr "N/A", color_primaries := .vStr "N/A"
    color_transfer := .vStr "bt709", color_range := .vStr "N/A"
    chroma_location := .vStr "N/A", field_order := .vStr "progressive"
    refs := .vStr "N/A", bits_per_raw_sample := .vStr "N/A"
    pix_fmt := .vStr "yuv420p", frame_rate := "fast"
    stream_count := .vInt 1, dolby_vision_profile := .vNone
    hdr := "No", bit_depth := .vStr "8" }

/-- An audio summary with an unparseable stream count. -/
def exAi8 : AudioInfo :=
  { codecs := "aac", codec_long_names := "AAC", channels := "2"
    sample_rates := "48000", bitrates := "128000", bit_depth := "N/A"
    stream_count := .vStr "many" }

/-- A subtitle summary with an unparseable stream count. -/
def exSi8 : SubtitleInfo :=
  { languages := "eng", formats := "subrip", stream_count := .vStr "some" }

/-- A trivial draw oracle. -/
def drawZero : Nat → ℚ := fun _ => 0

/-- A trivial subprocess-behaviour oracle. -/
def procsNone : Nat → Proc := fun _ => {}

/-- A statistics record whose audio stream count is unparseable while every
other field, including the subtitle stream count, is well formed. -/
def exRec1 : StatRecord :=
  { file := "a.mkv", containerFormat := "matroska", videoCodec := "h264"
    bits := "8", colorSpace := "bt709", hdr := "No"
    width := .vStr "1920", height := .vStr "1080"
    audioStreamCount := .vStr "abc", audioLanguages := "eng"
    audioChannels := "6", audioChannelLayouts := "5.1", audioCodecs := "aac"
    subStreamCount := .vStr "2", subLanguagesInFile := "eng"
    subFormatsInFile := "subrip", subsInFileAndFolder := none }

/-- A fully well-formed statistics record. -/
def exRec2 : StatRecord :=
  { file := "b.mkv", containerFormat := "matroska", videoCodec := "h264"
    bits := "8", colorSpace := "bt709", hdr := "No"
    width := .vStr "1920", height := .vStr "1080"
    audioStreamCount := .vStr "1", audioLanguages := "eng"
    audioChannels := "6", audioChannelLayouts := "5.1", audioCodecs := "aac"
    subStreamCount := .vStr "3", subLanguagesInFile := "eng"
    subFormatsInFile := "subrip", subsInFileAndFolder := none }

/-- Subprocess behaviours exercising each sampler outcome: sample 0 never
exits, sample 1 fails with exit code 1, sample 2 exits cleanly without a
speed token, sample 3 exits cleanly with a regex-matched but unconvertible
speed capture. -/
def exProcs7 : Nat → Proc := fun i =>
  if i = 0 then { exitTime := none }
  else if i = 1 then { exitTime := some 1, code := 1, stderr := "boom" }
  else if i = 2 then { exitTime := some 1, code := 0, stderr := "frame=100 fps=50" }
  else { exitTime := some 1, code := 0, stderr := "speed=...x" }

theorem isDigitCh_digitChar {n : Nat} (h : n < 10) : isDigitCh (digitChar n) = true := by
  interval_cases n <;> decide

theorem dVal_digitChar {n : Nat} (h : n < 10) : dVal (digitChar n) = n := by
  interval_cases n <;> decide

theorem digitsVal_append_one (l : List Char) (c : Char) :
    digitsVal (l ++ [c]) = 10 * digitsVal l + dVal c := by
  simp [digitsVal, List.foldl_append]

theorem natDigitsAux_all_digits : ∀ f n, (natDigitsAux f n).all isDigitCh = true := by
  intro f
  induction f with
  | zero => intro n; rfl
  | succ f ih =>
    intro n
    by_cases h : n = 0
    · simp [natDigitsAux, h]
    · have hd := isDigitCh_digitChar (n := n % 10) (Nat.mod_lt _ (by norm_num))
      simp [natDigitsAux, h, List.all_append, ih, hd]

theorem digitsVal_natDigitsAux : ∀ f n, n ≤ f → digitsVal (natDigitsAux f n) = n := by
  intro f
  induction f with
  | zero => intro n h; interval_cases n; rfl
  | succ f ih =>
    intro n h
    by_cases h0 : n = 0
    · subst h0; rfl
    · have hlt : n / 10 < n := Nat.div_lt_self (by omega) (by norm_num)
      rw [natDigitsAux, if_neg h0, digitsVal_append_one,
        ih (n / 10) (by omega), dVal_digitChar (Nat.mod_lt _ (by norm_num))]
      omega

theorem natDigitsAux_ne_nil {f n : Nat} (h1 : 1 ≤ n) (h2 : n ≤ f) :
    natDigitsAux f n ≠ [] := by
  intro hEq
  cases f with
  | zero => omega
  | succ f => rw [natDigitsAux, if_neg (by omega)] at hEq; simp at hEq

theorem natDigits10_all_digits (n : Nat) : (natDigits10 n).all isDigitCh = true := by
  by_cases h : n = 0
  · subst h; decide
  · simp [natDigits10, h, natDigitsAux_all_digits]

theorem digitsVal_natDigits10 (n : Nat) : digitsVal (natDigits10 n) = n := by
  by_cases h : n = 0
  · subst h; rfl
  · simp [natDigits10, h, digitsVal_natDigitsAux n n le_rfl]

theorem natDigits10_ne_nil (n : Nat) : natDigits10 n ≠ [] := by
  by_cases h : n = 0
  · simp [natDigits10, h]
  · simp [natDigits10, h]; exact natDigitsAux_ne_nil (by omega) le_rfl

theorem isSpaceCh_of_digit {c : Char} (h : isDigitCh c = true) : isSpaceCh c = false := by
  simp [isDigitCh] at h
  simp [isSpaceCh]
  omega

theorem ne_of_digit {c : Char} (h : isDigitCh c = true) {d : Char}
    (hd : isDigitCh d = false) : c ≠ d := by
  intro hEq
  rw [hEq] at h
  rw [h] at hd
  exact absurd hd (by simp)

theorem dropWhile_eq_self_of_all {p : Char → Bool} :
    ∀ l : List Char, (∀ c ∈ l, p c = false) → l.dropWhile p = l := by
  intro l h
  cases l with
  | nil => rfl
  | cons c cs => simp [List.dropWhile, h c (by simp)]

theorem strip_of_all_digits {l : List Char} (h : l.all isDigitCh = true) :
    ((l.dropWhile isSpaceCh).reverse.dropWhile isSpaceCh).reverse = l := by
  have h1 : l.dropWhile isSpaceCh = l := by
    refine dropWhile_eq_self_of_all l (fun c hc => ?_)
    exact isSpaceCh_of_digit (by simpa using List.all_eq_true.mp h c hc)
  rw [h1]
  have h2 : l.reverse.dropWhile isSpaceCh = l.reverse := by
    refine dropWhile_eq_self_of_all _ (fun c hc => ?_)
    exact isSpaceCh_of_digit (by simpa using List.all_eq_true.mp h c (List.mem_reverse.mp hc))
  rw [h2, List.reverse_reverse]

theorem pyIntStr?_natRepr (n : Nat) : pyIntStr? (natRepr n) = some (n : Int) := by
  have hAll := natDigits10_all_digits n
  have hne := natDigits10_ne_nil n
  have hData : (natRepr n).data = natDigits10 n := rfl
  have hc : isDigitCh ((natDigits10 n).headD ' ') = true := by
    obtain ⟨c, cs, hl⟩ := List.exists_cons_of_ne_nil hne
    rw [hl]
    simpa using List.all_eq_true.mp hAll c (by rw [hl]; simp)
  simp only [pyIntStr?]
  rw [hData, strip_of_all_digits hAll]
  rw [if_neg hne, if_neg (ne_of_digit hc (by decide)),
    if_neg (ne_of_digit hc (by decide)), if_pos hAll, digitsVal_natDigits10]

theorem splitChAux_no_sep {c : Char} :
    ∀ (l acc : List Char), (∀ x ∈ l, x ≠ c) → splitChAux c l acc = [acc.reverse ++ l] := by
  intro l
  induction l with
  | nil => intro acc h; simp [splitChAux]
  | cons x xs ih =>
    intro acc h
    rw [splitChAux, if_neg (h x (by simp)), ih (x :: acc) (fun y hy => h y (by simp [hy]))]
    simp

theorem splitChAux_sep {c : Char} :
    ∀ (l1 l2 acc : List Char), (∀ x ∈ l1, x ≠ c) →
      splitChAux c (l1 ++ c :: l2) acc = (acc.reverse ++ l1) :: splitChAux c l2 [] := by
  intro l1
  induction l1 with
  | nil => intro l2 acc h; simp [splitChAux]
  | cons x xs ih =>
    intro l2 acc h
    rw [List.cons_append, splitChAux, if_neg (h x (by simp)),
      ih l2 (x :: acc) (fun y hy => h y (by simp [hy]))]
    simp

theorem strHasSub_singleton (c : Char) : ∀ l : List Char, strHasSub [c] l = true ↔ c ∈ l := by
  intro l
  induction l with
  | nil => simp [strHasSub]
  | cons b bs ih =>
    rw [strHasSub]
    simp only [strHasPre, Bool.or_eq_true, ih, List.mem_cons]
    constructor
    · rintro (h | h)
      · left; exact of_decide_eq_true (by simpa using h)
      · right; exact h
    · rintro (h | h)
      · left; simp [h]
      · right; exact h

theorem goodCh_of_digit {c : Char} (h : isDigitCh c = true) : goodCh c = true := by
  simp [goodCh, h]

theorem all_goodCh_natDigits10 (n : Nat) : (natDigits10 n).all goodCh = true := by
  have h := natDigits10_all_digits n
  rw [List.all_eq_true] at h ⊢
  intro c hc
  simpa using goodCh_of_digit (by simpa using h c hc)

theorem all_goodCh_padZeros (k m : Nat) : (padZeros k m).data.all goodCh = true := by
  rw [padZeros, String.data_append]
  rw [List.all_append]
  have h1 : (String.mk (List.replicate (k - (natDigits10 m).length) '0')).data.all goodCh = true := by
    rw [List.all_eq_true]
    intro c hc
    have : c = '0' := List.eq_of_mem_replicate hc
    subst this
    decide
  have h2 : (natRepr m).data.all goodCh = true := all_goodCh_natDigits10 m
  rw [h1, h2]
  rfl

theorem formatFix_data_all_goodCh (k : Nat) (q : ℚ) :
    (formatFix k q).data.all goodCh = true := by
  simp only [formatFix, String.data_append, List.all_append, Bool.and_eq_true]
  refine ⟨⟨⟨?_, all_goodCh_natDigits10 _⟩, by decide⟩, all_goodCh_padZeros _ _⟩
  split <;> decide

theorem formatFix_no_comma (k : Nat) (q : ℚ) : pyInStr "," (formatFix k q) = false := by
  simp only [pyInStr]
  rw [Bool.eq_false_iff]
  intro h
  have hmem : ',' ∈ (formatFix k q).data := (strHasSub_singleton ',' _).mp h
  have := List.all_eq_true.mp (formatFix_data_all_goodCh k q) ',' hmem
  simp [goodCh, isDigitCh] at this

theorem formatFix_no_slash (k : Nat) (q : ℚ) : pyInStr "/" (formatFix k q) = false := by
  simp only [pyInStr]
  rw [Bool.eq_false_iff]
  intro h
  have hmem : '/' ∈ (formatFix k q).data := (strHasSub_singleton '/' _).mp h
  have := List.all_eq_true.mp (formatFix_data_all_goodCh k q) '/' hmem
  simp [goodCh, isDigitCh] at this

theorem parse_frame_rate_shape (v : Val) :
    parse_frame_rate v = "N/A" ∨ ∃ q, parse_frame_rate v = formatFix 3 q := by
  cases v with
  | vStr s =>
    simp only [parse_frame_rate]
    repeat' split
    all_goals first | (left; rfl) | (right; exact ⟨_, rfl⟩)
  | vInt n => left; rfl
  | vRat q => left; rfl
  | vNone => left; rfl

theorem exceptBind_ok {ε α β : Type} (a : α) (f : α → Except ε β) :
    (Except.ok a : Except ε α) >>= f = f a := rfl

theorem exceptBind_err {ε α β : Type} (e : ε) (f : α → Except ε β) :
    (Except.error e : Except ε α) >>= f = .error e := rfl

theorem detect_issues_ok_elim {fi : FileInfo} {vi : VideoInfo} {ai : AudioInfo}
    {si : SubtitleInfo} {out : IssueSet × List String}
    (h : detect_issues fi vi ai si = .ok out) :
    ∃ cl b1 wh p sc ac,
      pyLowerV vi.codec = .ok cl ∧
      catchVE (pyIntV vi.bitrate) = .ok b1 ∧
      catchVE (pyIntV2 vi.width vi.height) = .ok wh ∧
      valAsStr vi.profile = .ok p ∧
      catchVE (pyIntV si.stream_count) = .ok sc ∧
      catchVE (pyIntV ai.stream_count) = .ok ac ∧
      out = detect_issues_core fi vi ai si cl p b1 wh sc b1 ac := by
  rw [detect_issues] at h
  cases h1 : pyLowerV vi.codec with
  | error e => rw [h1, exceptBind_err] at h; exact absurd h (by simp)
  | ok cl =>
    rw [h1, exceptBind_ok] at h
    cases h2 : catchVE (pyIntV vi.bitrate) with
    | error e => rw [h2, exceptBind_err] at h; exact absurd h (by simp)
    | ok b1 =>
      rw [h2, exceptBind_ok] at h
      cases h3 : catchVE (pyIntV2 vi.width vi.height) with
      | error e => rw [h3, exceptBind_err] at h; exact absurd h (by simp)
      | ok wh =>
        rw [h3, exceptBind_ok] at h
        cases h4 : valAsStr vi.profile with
        | error e => rw [h4, exceptBind_err] at h; exact absurd h (by simp)
        | ok p =>
          rw [h4, exceptBind_ok] at h
          cases h5 : catchVE (pyIntV si.stream_count) with
          | error e => rw [h5, exceptBind_err] at h; exact absurd h (by simp)
          | ok sc =>
            rw [h5, exceptBind_ok, exceptBind_ok] at h
            cases h6 : catchVE (pyIntV ai.stream_count) with
            | error e => rw [h6, exceptBind_err] at h; exact absurd h (by simp)
            | ok ac =>
              rw [h6, exceptBind_ok] at h
              refine ⟨cl, b1, wh, p, sc, ac, rfl, rfl, rfl, rfl, rfl, rfl, ?_⟩
              have h' : Except.ok (ε := PyErr)
                  (detect_issues_core fi vi ai si cl p b1 wh sc b1 ac) = .ok out := h
              cases h'
              rfl

theorem pyIntV_ok_or_vE {v : Val} (h : v ≠ .vNone) :
    (∃ n, pyIntV v = .ok n) ∨ (∃ m, pyIntV v = .error (.valueError m)) := by
  cases v with
  | vStr s =>
    cases hs : pyIntStr? s with
    | some n => exact .inl ⟨n, by simp [pyIntV, hs]⟩
    | none =>
      exact .inr ⟨"invalid literal for int() with base 10: \x27" ++ s ++ "\x27",
        by simp [pyIntV, hs]⟩
  | vInt n => exact .inl ⟨n, rfl⟩
  | vRat q => exact .inl ⟨_, rfl⟩
  | vNone => exact absurd rfl h

theorem catchVE_pyIntV_ok {v : Val} (h : v ≠ .vNone) :
    ∃ o, catchVE (pyIntV v) = .ok o := by
  rcases pyIntV_ok_or_vE h with ⟨n, hn⟩ | ⟨m, hm⟩
  · exact ⟨some n, by rw [hn]; rfl⟩
  · exact ⟨none, by rw [hm]; rfl⟩

theorem catchVE_pyIntV_strNone {s : String} (hs : pyIntStr? s = none) :
    catchVE (pyIntV (.vStr s)) = .ok none := by
  simp [pyIntV, hs, catchVE]

theorem catchVE_pyIntV2_ok {w h : Val} (hw : w ≠ .vNone) (hh : h ≠ .vNone) :
    ∃ o, catchVE (pyIntV2 w h) = .ok o := by
  rcases pyIntV_ok_or_vE hw with ⟨n, hn⟩ | ⟨m, hm⟩
  · rcases pyIntV_ok_or_vE hh with ⟨k, hk⟩ | ⟨m2, hm2⟩
    · refine ⟨some (n, k), ?_⟩
      rw [pyIntV2, hn, exceptBind_ok, hk, exceptBind_ok]
      rfl
    · refine ⟨none, ?_⟩
      rw [pyIntV2, hn, exceptBind_ok, hm2, exceptBind_err]
      rfl
  · refine ⟨none, ?_⟩
    rw [pyIntV2, hm, exceptBind_err]
    rfl

theorem catchVE_pyIntV2_left_none {w h : Val} {s : String} (hw : w = .vStr s)
    (hs : pyIntStr? s = none) : catchVE (pyIntV2 w h) = .ok none := by
  subst hw
  have h2 : ∃ m, pyIntV (Val.vStr s) = .error (.valueError m) := by simp [pyIntV, hs]
  obtain ⟨m, hm⟩ := h2
  rw [pyIntV2, hm, exceptBind_err]
  rfl

theorem catchVE_pyIntV2_right_none {w h : Val} {s : String} (hw : w ≠ .vNone)
    (hh : h = .vStr s) (hs : pyIntStr? s = none) : catchVE (pyIntV2 w h) = .ok none := by
  subst hh
  have h2 : ∃ m, pyIntV (Val.vStr s) = .error (.valueError m) := by simp [pyIntV, hs]
  obtain ⟨m, hm⟩ := h2
  rcases pyIntV_ok_or_vE hw with ⟨n, hn⟩ | ⟨m1, hm1⟩
  · rw [pyIntV2, hn, exceptBind_ok, hm, exceptBind_err]
    rfl
  · rw [pyIntV2, hm1, exceptBind_err]
    rfl

theorem natRepr_no_slash (n : Nat) : ∀ x ∈ (natRepr n).data, x ≠ '/' := by
  intro x hx
  have h := List.all_eq_true.mp (natDigits10_all_digits n) x hx
  exact ne_of_digit (by simpa using h) (by decide)

theorem parse_frame_rate_frac (n d : Nat) :
    parse_frame_rate (.vStr (natRepr n ++ "/" ++ natRepr d)) =
      if (d : Int) ≠ 0 then formatFix 3 (((n : Int) : ℚ) / ((d : Int) : ℚ)) else "N/A" := by
  have hdata : (natRepr n ++ "/" ++ natRepr d).data
      = (natRepr n).data ++ '/' :: (natRepr d).data := by
    simp [String.data_append]
  have hsub : strHasSub ['/'] (natRepr n ++ "/" ++ natRepr d).data = true := by
    rw [hdata]
    exact (strHasSub_singleton '/' _).mpr (by simp)
  have hsplit : pySplit '/' (natRepr n ++ "/" ++ natRepr d) = [natRepr n, natRepr d] := by
    rw [pySplit, hdata, splitChAux_sep _ _ _ (natRepr_no_slash n),
      splitChAux_no_sep _ _ (natRepr_no_slash d)]
    simp

  simp only [parse_frame_rate, hsub, if_true, hsplit, pyIntStr?_natRepr]

/-- C5: for a frame-rate string "n/d", a nonzero denominator gives n/d
formatted to exactly 3 decimal places and a zero denominator gives "N/A"; a
plain decimal string is reformatted to 3 decimal places; any other string and
any non-string value give "N/A" — including every slash-containing string
that does not split into exactly two int-parseable parts with a nonzero
denominator (so "N/A", "1/2/3", "a/b" all give "N/A"). -/
theorem C5_parse_frame_rate :
    (∀ n d : Nat, d ≠ 0 →
      parse_frame_rate (.vStr (natRepr n ++ "/" ++ natRepr d))
        = formatFix 3 ((n : ℚ) / (d : ℚ))) ∧
    (∀ n : Nat,
      parse_frame_rate (.vStr (natRepr n ++ "/" ++ natRepr 0)) = "N/A") ∧
    (∀ (s : String) (q : ℚ), strHasSub ['/'] s.data = false →
      pyIsDigit (removeFirstDot s.data) = true → pyFloatStr? s = some q →
      parse_frame_rate (.vStr s) = formatFix 3 q) ∧
    (∀ s : String, strHasSub ['/'] s.data = false →
      pyIsDigit (removeFirstDot s.data) = false → parse_frame_rate (.vStr s) = "N/A") ∧
    (∀ v : Val, (∀ s, v ≠ .vStr s) → parse_frame_rate v = "N/A") ∧
    (∀ s : String, strHasSub ['/'] s.data = true →
      (¬ ∃ p q : String, ∃ n d : Int, pySplit '/' s = [p, q] ∧ pyIntStr? p = some n ∧
        pyIntStr? q = some d ∧ d ≠ 0) →
      parse_frame_rate (.vStr s) = "N/A") := by
  refine ⟨?_, ?_, ?_, ?_, ?_, ?_⟩
  · intro n d hd
    rw [parse_frame_rate_frac n d, if_pos (by exact_mod_cast hd)]
    have hc : (((n : Int) : ℚ)) / (((d : Int) : ℚ)) = (n : ℚ) / (d : ℚ) := by push_cast; ring
    rw [hc]
  · intro n
    rw [parse_frame_rate_frac n 0, if_neg (by simp)]
  · intro s q h1 h2 h3
    simp [parse_frame_rate, h1, h2, h3]
  · intro s h1 h2
    simp [parse_frame_rate, h1, h2]
  · intro v hv
    cases v with
    | vStr s => exact absurd rfl (hv s)
    | vInt n => rfl
    | vRat q => rfl
    | vNone => rfl
  · intro s hsub hno
    cases hsp : pySplit '/' s with
    | nil => simp [parse_frame_rate, hsub, hsp]
    | cons p rest =>
      cases rest with
      | nil => simp [parse_frame_rate, hsub, hsp]
      | cons q rest2 =>
        cases rest2 with
        | cons r rest3 => simp [parse_frame_rate, hsub, hsp]
        | nil =>
          cases hp : pyIntStr? p with
          | none =>
            cases hq : pyIntStr? q <;> simp [parse_frame_rate, hsub, hsp, hp, hq]
          | some n =>
            cases hq : pyIntStr? q with
            | none => simp [parse_frame_rate, hsub, hsp, hp, hq]
            | some d =>
              by_cases hd : d = 0
              · subst hd
                simp [parse_frame_rate, hsub, hsp, hp, hq]
              · exact absurd ⟨p, q, n, d, hsp, hp, hq, hd⟩ hno

/-- C5 witness: the theorem applied at "24000/1001", "24/0", "23.5", "hello",
a non-string, and the slash-containing non-fraction strings "N/A" and
"1/2/3". -/
theorem C5_parse_frame_rate_witness :
    parse_frame_rate (.vStr (natRepr 24000 ++ "/" ++ natRepr 1001))
        = formatFix 3 ((24000 : ℚ) / (1001 : ℚ)) ∧
    parse_frame_rate (.vStr (natRepr 24 ++ "/" ++ natRepr 0)) = "N/A" ∧
    parse_frame_rate (.vStr "23.5") = formatFix 3 ((47 : ℚ) / 2) ∧
    parse_frame_rate (.vStr "hello") = "N/A" ∧
    parse_frame_rate .vNone = "N/A" ∧
    parse_frame_rate (.vStr "N/A") = "N/A" ∧
    parse_frame_rate (.vStr "1/2/3") = "N/A" := by
  have h := C5_parse_frame_rate
  have hna : parse_frame_rate (.vStr "N/A") = "N/A" := by
    refine h.2.2.2.2.2 "N/A" (by decide) ?_
    rintro ⟨p, q, n, d, h1, h2, h3, h4⟩
    have hps : pySplit '/' "N/A" = ["N", "A"] := by decide
    rw [hps] at h1
    injection h1 with hp h1'
    rw [← hp] at h2
    have hN : pyIntStr? "N" = none := by decide
    rw [hN] at h2
    exact Option.noConfusion h2
  have h123 : parse_frame_rate (.vStr "1/2/3") = "N/A" := by
    refine h.2.2.2.2.2 "1/2/3" (by decide) ?_
    rintro ⟨p, q, n, d, h1, h2, h3, h4⟩
    have hps : pySplit '/' "1/2/3" = ["1", "2", "3"] := by decide
    rw [hps] at h1
    simp at h1
  refine ⟨h.1 24000 1001 (by decide), h.2.1 24,
    h.2.2.1 "23.5" ((47 : ℚ) / 2) (by decide) (by decide) (by decide),
    h.2.2.2.1 "hello" (by decide) (by decide), h.2.2.2.2.1 .vNone ?_, hna, h123⟩
  intro s hs
  exact Val.noConfusion hs

/-- C6: speed-quotient tiering is a total map of a numeric quotient into
exactly one of Failed/Low/Medium/High with left-closed boundaries at 1.2, 2
and 3 (so 2.0 is Medium), and any conversion failure, in the quotient
computation or in the tiering itself, yields "Error". -/
theorem C6_speed_tiering :
    (∀ q : ℚ, get_transcode_speed_group (.vRat q) = "Failed"
        ∨ get_transcode_speed_group (.vRat q) = "Low"
        ∨ get_transcode_speed_group (.vRat q) = "Medium"
        ∨ get_transcode_speed_group (.vRat q) = "High") ∧
    (∀ q : ℚ, get_transcode_speed_group (.vRat q) = "Failed" ↔ q < 6 / 5) ∧
    (∀ q : ℚ, get_transcode_speed_group (.vRat q) = "Low" ↔ 6 / 5 ≤ q ∧ q < 2) ∧
    (∀ q : ℚ, get_transcode_speed_group (.vRat q) = "Medium" ↔ 2 ≤ q ∧ q < 3) ∧
    (∀ q : ℚ, get_transcode_speed_group (.vRat q) = "High" ↔ 3 ≤ q) ∧
    get_transcode_speed_group (.vRat 2) = "Medium" ∧
    (∀ v : Val, pyFloatV? v = none → get_transcode_speed_group v = "Error") ∧
    (∀ speed fr : Val, pyFloatV? speed = none →
      calc_transcode_speed_quot speed fr = .vStr "Error"
        ∧ get_transcode_speed_group (calc_transcode_speed_quot speed fr) = "Error") := by
  have hg : ∀ q : ℚ, get_transcode_speed_group (.vRat q)
      = if q < 6 / 5 then "Failed" else if q < 2 then "Low"
        else if q < 3 then "Medium" else "High" := fun q => rfl
  refine ⟨?_, ?_, ?_, ?_, ?_, by decide, ?_, ?_⟩
  · intro q
    rw [hg q]
    split_ifs <;> simp
  · intro q
    constructor
    · intro h
      rw [hg] at h
      split_ifs at h with h1 h2 h3
      · exact h1
      · exact absurd h (by decide)
      · exact absurd h (by decide)
      · exact absurd h (by decide)
    · intro ha
      rw [hg, if_pos ha]
  · intro q
    constructor
    · intro h
      rw [hg] at h
      split_ifs at h with h1 h2 h3
      · exact absurd h (by decide)
      · exact ⟨not_lt.mp h1, h2⟩
      · exact absurd h (by decide)
      · exact absurd h (by decide)
    · rintro ⟨ha, hb⟩
      rw [hg, if_neg (not_lt.mpr ha), if_pos hb]
  · intro q
    constructor
    · intro h
      rw [hg] at h
      split_ifs at h with h1 h2 h3
      · exact absurd h (by decide)
      · exact absurd h (by decide)
      · exact ⟨not_lt.mp h2, h3⟩
      · exact absurd h (by decide)
    · rintro ⟨ha, hb⟩
      rw [hg, if_neg (by linarith), if_neg (not_lt.mpr ha), if_pos hb]
  · intro q
    constructor
    · intro h
      rw [hg] at h
      split_ifs at h with h1 h2 h3
      · exact absurd h (by decide)
      · exact absurd h (by decide)
      · exact absurd h (by decide)
      · exact not_lt.mp h3
    · intro ha
      rw [hg, if_neg (by linarith), if_neg (by linarith), if_neg (not_lt.mpr ha)]
  · intro v hv
    rw [get_transcode_speed_group]
    cases he : valEqS v "Error"
    · rw [if_neg (by simp [he]), hv]
    · rw [if_pos (by simp [he])]
  · intro speed fr hs
    have hq : calc_transcode_speed_quot speed fr = .vStr "Error" := by
      rw [calc_transcode_speed_quot, hs]
    exact ⟨hq, by rw [hq]; rfl⟩

/-- C6 witness: the theorem applied at quotients 1, 1.5, 2, 2.5, 3 and at a
non-numeric input. -/
theorem C6_speed_tiering_witness :
    get_transcode_speed_group (.vRat 1) = "Failed" ∧
    get_transcode_speed_group (.vRat (3 / 2)) = "Low" ∧
    get_transcode_speed_group (.vRat 2) = "Medium" ∧
    get_transcode_speed_group (.vRat 3) = "High" ∧
    get_transcode_speed_group (.vStr "oops") = "Error" ∧
    calc_transcode_speed_quot (.vStr "Error") (.vStr "25.000") = .vStr "Error" := by
  have h := C6_speed_tiering
  refine ⟨(h.2.1 1).mpr (by norm_num), (h.2.2.1 (3 / 2)).mpr (by norm_num),
    h.2.2.2.2.2.1, (h.2.2.2.2.1 3).mpr (by norm_num),
    h.2.2.2.2.2.2.1 (.vStr "oops") (by decide),
    (h.2.2.2.2.2.2.2 (.vStr "Error") (.vStr "25.000") (by decide)).1⟩

/-- C3 counterexample: with the integers 3840 and 2160 for width and height
(as ffprobe emits them in JSON) the detector succeeds but the "4K content"
flag stays False, because the rule compares against the strings "3840" and
"2160". -/
theorem C3_counterexample :
    exVi3.width = .vInt 3840 ∧ exVi3.height = .vInt 2160 ∧
    Except.map (fun pr => pr.1.fourKContent)
      (detect_issues exFiPlain exVi3 exAi3 exSi3) = .ok false := ⟨rfl, rfl, rfl⟩

/-- C3 (amended): whenever the detector returns, the "4K content" flag equals
the Python string comparisons width == "3840" and height == "2160"; string
values "3840"/"2160" always fire it, integer values never do. -/
theorem C3_fourK_flag (fi : FileInfo) (vi : VideoInfo) (ai : AudioInfo)
    (si : SubtitleInfo) (out : IssueSet × List String)
    (h : detect_issues fi vi ai si = .ok out) :
    out.1.fourKContent = (valEqS vi.width "3840" && valEqS vi.height "2160") := by
  obtain ⟨cl, b1, wh, pr, sc, ac, _, _, _, _, _, _, hout⟩ := detect_issues_ok_elim h
  subst hout
  rfl

/-- C3 witness: the amended theorem applied to a record with string-valued
width "3840" and height "2160". -/
theorem C3_fourK_flag_witness :
    ∃ out, detect_issues exFiPlain
        { exVi3 with width := Val.vStr "3840", height := Val.vStr "2160" } exAi3 exSi3
        = .ok out ∧ out.1.fourKContent = true := by
  obtain ⟨out, hout⟩ : ∃ out, detect_issues exFiPlain
      { exVi3 with width := Val.vStr "3840", height := Val.vStr "2160" } exAi3 exSi3
      = .ok out := ⟨_, rfl⟩
  refine ⟨out, hout, ?_⟩
  rw [C3_fourK_flag _ _ _ _ _ hout]
  rfl

/-- C10 counterexample: a probe document whose video stream has no
`avg_frame_rate` yields the classifier frame rate "N/A", and since "N/A"
contains the character '/' the "Variable frame rate" flag is True, refuting
the claim that the flag is always False on classifier output. -/
theorem C10_counterexample :
    (extract_video_info exDoc4).frame_rate = "N/A" ∧
    Except.map (fun pr => pr.1.variableFrameRate)
      (detect_issues exFiPlain (extract_video_info exDoc4) exAi3 exSi3) = .ok true :=
  ⟨rfl, rfl⟩

/-- C10 (amended): on classifier output, the "Variable frame rate" flag is
True exactly when the normalized frame rate is the sentinel "N/A" (which
contains '/'); a successfully formatted frame rate never fires it. -/
theorem C10_variable_frame_rate (doc : ProbeDoc) (fi : FileInfo) (ai : AudioInfo)
    (si : SubtitleInfo) (out : IssueSet × List String)
    (h : detect_issues fi (extract_video_info doc) ai si = .ok out) :
    (out.1.variableFrameRate = true ↔ (extract_video_info doc).frame_rate = "N/A") := by
  obtain ⟨cl, b1, wh, pr, sc, ac, _, _, _, _, _, _, hout⟩ := detect_issues_ok_elim h
  subst hout
  have hfr : (extract_video_info doc).frame_rate
      = parse_frame_rate (getS0 (·.avg_frame_rate) (videoStreams doc)) := rfl
  have hvfr : (detect_issues_core fi (extract_video_info doc) ai si cl pr b1 wh sc b1 ac).1.variableFrameRate
      = (pyInStr "," ((extract_video_info doc).frame_rate)
          || pyInStr "/" ((extract_video_info doc).frame_rate)) := rfl
  rw [hvfr, hfr]
  rcases parse_frame_rate_shape (getS0 (·.avg_frame_rate) (videoStreams doc)) with hna | ⟨q, hq⟩
  · rw [hna]
    exact ⟨fun _ => rfl, fun _ => by decide⟩
  · rw [hq, formatFix_no_comma, formatFix_no_slash]
    constructor
    · intro hfalse
      exact absurd hfalse (by simp)
    · intro hEq
      exfalso
      have hsl : pyInStr "/" (formatFix 3 q) = true := by rw [hEq]; decide
      rw [formatFix_no_slash] at hsl
      exact absurd hsl (by simp)

/-- C10 witness: the amended theorem applied to the document without an
`avg_frame_rate`. -/
theorem C10_variable_frame_rate_witness :
    ∃ out, detect_issues exFiPlain (extract_video_info exDoc4) exAi3 exSi3 = .ok out ∧
      (out.1.variableFrameRate = true ↔ (extract_video_info exDoc4).frame_rate = "N/A") := by
  obtain ⟨out, hout⟩ : ∃ out, detect_issues exFiPlain (extract_video_info exDoc4) exAi3 exSi3
      = .ok out := ⟨_, rfl⟩
  exact ⟨out, hout, C10_variable_frame_rate exDoc4 _ _ _ out hout⟩

/-- C8: on records whose codec and profile are strings and whose numeric-ish
fields are never None, the detector returns normally; and for each of the
five numeric field groups (bitrate, width/height, frame rate, subtitle count,
audio count), an unparseable string value leaves the specific rule's flag
False, setting "Unknown metadata" instead when the value is not an N/A-like
sentinel. -/
theorem C8_unknown_metadata_safety (fi : FileInfo) (vi : VideoInfo)
    (ai : AudioInfo) (si : SubtitleInfo) (c pstr : String)
    (hc : vi.codec = .vStr c) (hp : vi.profile = .vStr pstr)
    (hbrNN : vi.bitrate ≠ .vNone) (hwNN : vi.width ≠ .vNone) (hhNN : vi.height ≠ .vNone)
    (hscNN : si.stream_count ≠ .vNone) (hacNN : ai.stream_count ≠ .vNone) :
    (∃ out, detect_issues fi vi ai si = .ok out) ∧
    (∀ s out, vi.bitrate = .vStr s → pyIntStr? s = none →
      detect_issues fi vi ai si = .ok out →
      out.1.highBitrate = false ∧ out.1.lowBitrate = false ∧ out.1.veryHighBitrate = false
        ∧ (is_empty_or_na (.vStr s) = false → out.1.unknownMetadata = true)) ∧
    (∀ s out, (vi.width = .vStr s ∨ vi.height = .vStr s) → pyIntStr? s = none →
      detect_issues fi vi ai si = .ok out →
      out.1.nonStandardResolution = false
        ∧ (is_empty_or_na vi.width = false → is_empty_or_na vi.height = false →
            out.1.unknownMetadata = true)) ∧
    (∀ out, pyFloatStr? vi.frame_rate = none →
      is_empty_or_na (.vStr vi.frame_rate) = false →
      detect_issues fi vi ai si = .ok out →
      out.1.nonStandardFrameRate = false ∧ out.1.unknownMetadata = true) ∧
    (∀ s out, si.stream_count = .vStr s → pyIntStr? s = none →
      detect_issues fi vi ai si = .ok out →
      out.1.highSubtitleStreamCount = false
        ∧ (is_empty_or_na (.vStr s) = false → out.1.unknownMetadata = true)) ∧
    (∀ s out, ai.stream_count = .vStr s → pyIntStr? s = none →
      detect_issues fi vi ai si = .ok out →
      out.1.multipleAudioStreams = false
        ∧ (is_empty_or_na (.vStr s) = false → out.1.unknownMetadata = true)) := by
  obtain ⟨b1o, hb1⟩ := catchVE_pyIntV_ok hbrNN
  obtain ⟨who, hwh⟩ := catchVE_pyIntV2_ok hwNN hhNN
  obtain ⟨sco, hsc⟩ := catchVE_pyIntV_ok hscNN
  obtain ⟨aco, hac⟩ := catchVE_pyIntV_ok hacNN
  have hcl : pyLowerV vi.codec = .ok (pyLowerStr c) := by rw [hc]; rfl
  have hpp : valAsStr vi.profile = .ok pstr := by rw [hp]; rfl
  refine ⟨?_, ?_, ?_, ?_, ?_, ?_⟩
  · refine ⟨detect_issues_core fi vi ai si (pyLowerStr c) pstr b1o who sco b1o aco, ?_⟩
    rw [detect_issues, hcl, exceptBind_ok, hb1, exceptBind_ok, hwh, exceptBind_ok,
      hpp, exceptBind_ok, hsc, exceptBind_ok, exceptBind_ok, hac, exceptBind_ok]
    rfl
  · intro s out hbs hsn hdet
    obtain ⟨cl, b1, wh, pr, sc, ac, e1, e2, e3, e4, e5, e6, hout⟩ := detect_issues_ok_elim hdet
    have hb1n : catchVE (pyIntV vi.bitrate) = .ok none := by
      rw [hbs]; exact catchVE_pyIntV_strNone hsn
    have hbn : b1 = none := by
      have h2 := hb1n.symm.trans e2
      injection h2 with h2'
      exact h2'.symm
    subst hout
    subst hbn
    refine ⟨rfl, rfl, rfl, fun hna => ?_⟩
    simp [detect_issues_core, hbs, hna]
  · intro s out hws hsn hdet
    obtain ⟨cl, b1, wh, pr, sc, ac, e1, e2, e3, e4, e5, e6, hout⟩ := detect_issues_ok_elim hdet
    have hwhn : catchVE (pyIntV2 vi.width vi.height) = .ok none := by
      rcases hws with hws | hws
      · exact catchVE_pyIntV2_left_none hws hsn
      · exact catchVE_pyIntV2_right_none hwNN hws hsn
    have hwn : wh = none := by
      have h2 := hwhn.symm.trans e3
      injection h2 with h2'
      exact h2'.symm
    subst hout
    subst hwn
    refine ⟨rfl, fun hnaw hnah => ?_⟩
    simp [detect_issues_core, hnaw, hnah]
  · intro out hfn hna hdet
    obtain ⟨cl, b1, wh, pr, sc, ac, e1, e2, e3, e4, e5, e6, hout⟩ := detect_issues_ok_elim hdet
    subst hout
    refine ⟨?_, ?_⟩
    · simp [detect_issues_core, hfn]
    · simp [detect_issues_core, hfn, hna]
  · intro s out hss hsn hdet
    obtain ⟨cl, b1, wh, pr, sc, ac, e1, e2, e3, e4, e5, e6, hout⟩ := detect_issues_ok_elim hdet
    have hscn : catchVE (pyIntV si.stream_count) = .ok none := by
      rw [hss]; exact catchVE_pyIntV_strNone hsn
    have hsn' : sc = none := by
      have h2 := hscn.symm.trans e5
      injection h2 with h2'
      exact h2'.symm
    subst hout
    subst hsn'
    refine ⟨rfl, fun hna => ?_⟩
    simp [detect_issues_core, hss, hna]
  · intro s out has hsn hdet
    obtain ⟨cl, b1, wh, pr, sc, ac, e1, e2, e3, e4, e5, e6, hout⟩ := detect_issues_ok_elim hdet
    have hacn : catchVE (pyIntV ai.stream_count) = .ok none := by
      rw [has]; exact catchVE_pyIntV_strNone hsn
    have han : ac = none := by
      have h2 := hacn.symm.trans e6
      injection h2 with h2'
      exact h2'.symm
    subst hout
    subst han
    refine ⟨rfl, fun hna => ?_⟩
    simp [detect_issues_core, has, hna]

/-- C8 witness: the safety theorem applied to a record whose five numeric-ish
fields are all unparseable non-sentinel strings. -/
theorem C8_unknown_metadata_safety_witness :
    ∃ out, detect_issues exFiPlain exVi8 exAi8 exSi8 = .ok out ∧
      out.1.unknownMetadata = true ∧ out.1.highBitrate = false ∧
      out.1.nonStandardResolution = false ∧ out.1.nonStandardFrameRate = false ∧
      out.1.highSubtitleStreamCount = false ∧ out.1.multipleAudioStreams = false := by
  have h := C8_unknown_metadata_safety exFiPlain exVi8 exAi8 exSi8 "h264" "Main"
    rfl rfl (by decide) (by decide) (by decide) (by decide) (by decide)
  obtain ⟨out, hout⟩ := h.1
  have hb := h.2.1 "abc" out rfl (by decide) hout
  have hw := h.2.2.1 "wide" out (Or.inl rfl) (by decide) hout
  have hf := h.2.2.2.1 out (by decide) (by decide) hout
  have hs := h.2.2.2.2.1 "some" out rfl (by decide) hout
  have ha := h.2.2.2.2.2 "many" out rfl (by decide) hout
  exact ⟨out, hout, hb.2.2.2 (by decide), hb.1, hw.1, hf.1, hs.1, ha.1⟩

/-- C2 counterexample: on the exact scenario-1 probe document the pipeline
does NOT produce an all-false IssueSet with bit depth "8" and description
"None": the empty audio/subtitle join strings set "Unknown metadata", and
the absent bits_per_raw_sample makes the bit depth "N/A". -/
theorem C2_counterexample :
    detect_issues exFi1 (extract_video_info exDoc1) (extract_audio_info exDoc1)
        (extract_subtitle_info exDoc1) = .ok (exIssues1, exDescs1) ∧
    exIssues1.unknownMetadata = true ∧
    (extract_video_info exDoc1).bit_depth = .vStr "N/A" ∧
    (Val.vStr "N/A") ≠ .vStr "8" ∧
    joinSep "; " (pySort exDescs1) ≠ "None" :=
  ⟨rfl, rfl, rfl, by decide, by decide⟩

/-- C2 (amended): scenario 1 produces exactly the flags "Unknown metadata"
and "Non-standard audio codec" (all 17 others False, because the file has no
audio or subtitle streams and their join strings are empty), HDR "No", bit
depth "N/A" (bits_per_raw_sample absent), frame rate "23.976", and the
compiled description field is the sorted two-line join, not "None". -/
theorem C2_scenario1_outputs :
    extract_file_info exMeta exDoc1 = .ok exFi1 ∧
    detect_issues exFi1 (extract_video_info exDoc1) (extract_audio_info exDoc1)
        (extract_subtitle_info exDoc1) = .ok (exIssues1, exDescs1) ∧
    issueFlagStrs exIssues1
      = ["1", "0", "1", "0", "0", "0", "0", "0", "0", "0",
         "0", "0", "0", "0", "0", "0", "0", "0", "0"] ∧
    (extract_video_info exDoc1).hdr = "No" ∧
    (extract_video_info exDoc1).bit_depth = .vStr "N/A" ∧
    (extract_video_info exDoc1).frame_rate = "23.976" ∧
    joinSep "; " (pySort exDescs1)
      = "Non-standard audio codec(s): ; Some file information couldn\x27t be determined" :=
  ⟨rfl, rfl, rfl, rfl, rfl, rfl, rfl⟩

/-- C4 counterexample: with two video streams the package classifier
`extract_video_info` keeps the first stream's raw codec and profile without
any " (+1)" suffix. -/
theorem C4_counterexample :
    (videoStreams exDoc2).length = 2 ∧
    (extract_video_info exDoc2).codec = .vStr "h264" ∧
    (extract_video_info exDoc2).codec ≠ .vStr "h264 (+1)" ∧
    (extract_video_info exDoc2).profile = .vStr "High" ∧
    (extract_video_info exDoc2).profile ≠ .vStr "High (+1)" :=
  ⟨rfl, rfl, by decide, rfl, by decide⟩

/-- C4 (amended): the " (+{count-1})" folding of codec, codec_long_name,
profile and level is performed only by the top-level media-inventory.py
process_file (embedded as mono_video_fields) when more than one video stream
exists; the package classifier extract_video_info always returns the first
stream's raw values. -/
theorem C4_video_folding (doc : ProbeDoc) :
    (1 < (videoStreams doc).length →
      mono_video_fields doc =
        (.vStr (pyStr (getS0 (·.codec_name) (videoStreams doc)) ++ " (+"
            ++ natRepr ((videoStreams doc).length - 1) ++ ")"),
         .vStr (pyStr (getS0 (·.codec_long_name) (videoStreams doc)) ++ " (+"
            ++ natRepr ((videoStreams doc).length - 1) ++ ")"),
         .vStr (pyStr (getS0 (·.profile) (videoStreams doc)) ++ " (+"
            ++ natRepr ((videoStreams doc).length - 1) ++ ")"),
         .vStr (pyStr (getS0 (·.level) (videoStreams doc)) ++ " (+"
            ++ natRepr ((videoStreams doc).length - 1) ++ ")"))) ∧
    ((videoStreams doc).length ≤ 1 →
      mono_video_fields doc =
        (getS0 (·.codec_name) (videoStreams doc),
         getS0 (·.codec_long_name) (videoStreams doc),
         getS0 (·.profile) (videoStreams doc),
         getS0 (·.level) (videoStreams doc))) ∧
    (extract_video_info doc).codec = getS0 (·.codec_name) (videoStreams doc) ∧
    (extract_video_info doc).codec_long_name
      = getS0 (·.codec_long_name) (videoStreams doc) ∧
    (extract_video_info doc).profile = getS0 (·.profile) (videoStreams doc) ∧
    (extract_video_info doc).level = getS0 (·.level) (videoStreams doc) := by
  refine ⟨fun h => ?_, fun h => ?_, rfl, rfl, rfl, rfl⟩
  · simp only [mono_video_fields]
    rw [if_pos h]
  · simp only [mono_video_fields]
    rw [if_neg (not_lt.mpr h)]

/-- C4 witness: the amended theorem applied to the two-stream document, where
the monolith's fields all carry " (+1)" (including str() coercion of the
integer level). -/
theorem C4_video_folding_witness :
    1 < (videoStreams exDoc2).length ∧
    mono_video_fields exDoc2
      = (.vStr "h264 (+1)", .vStr "H.264 (+1)", .vStr "High (+1)", .vStr "40 (+1)") := by
  refine ⟨by decide, ?_⟩
  rw [(C4_video_folding exDoc2).1 (by decide)]
  rfl

/-- C9 counterexample: in a two-record fold where the first record's audio
stream count is unparseable but its subtitle stream count "2" is parseable,
the fold records one error and keeps counting the record in the EARLIER
statistics (container formats = 2), but the subtitle total is 3 — the
record's parseable 2 was silently dropped from a DIFFERENT statistic than
the one that failed. -/
theorem C9_counterexample :
    (generate_statistics [exRec1, exRec2]).errors.length = 1 ∧
    (generate_statistics [exRec1, exRec2]).file_formats "matroska" = 2 ∧
    (generate_statistics [exRec1, exRec2]).sub_total_count = 3 ∧
    ((3 : Int) ≠ 2 + 3) :=
  ⟨rfl, rfl, rfl, by decide⟩

/-- C9 (amended): when one record's audio-stream-count conversion fails, the
failure is caught and appended to the error list and the fold continues with
the remaining records, but the record is excluded from the failing statistic
and from every statistic computed after it in the per-record block (subtitle
totals included), while the statistics computed before the failure keep its
contribution. -/
theorem C9_fold_failure_scope (st : Stats) (m : StatRecord) (s : String)
    (hm : m.audioStreamCount = .vStr s) (hs : pyIntStr? s = none) :
    (processRecord st m).errors = st.errors
        ++ [statsErrMsg m (.valueError
            ("invalid literal for int() with base 10: \x27" ++ s ++ "\x27"))] ∧
    (processRecord st m).file_formats m.containerFormat
        = st.file_formats m.containerFormat + 1 ∧
    (processRecord st m).video_codecs m.videoCodec = st.video_codecs m.videoCodec + 1 ∧
    (∀ k, (processRecord st m).soundtrack_counts k = st.soundtrack_counts k) ∧
    (processRecord st m).sub_total_count = st.sub_total_count ∧
    (∀ rest, List.foldl processRecord st (m :: rest)
        = List.foldl processRecord (processRecord st m) rest) := by
  have hint : pyIntV m.audioStreamCount = .error (.valueError
      ("invalid literal for int() with base 10: \x27" ++ s ++ "\x27")) := by
    rw [hm]
    simp [pyIntV, hs]
  have hpr : processRecord st m = { statsStepA st m with
      errors := (statsStepA st m).errors ++ [statsErrMsg m (.valueError
        ("invalid literal for int() with base 10: \x27" ++ s ++ "\x27"))] } := by
    rw [processRecord, hint]
  refine ⟨?_, ?_, ?_, ?_, ?_, fun rest => rfl⟩
  · rw [hpr]
    show (statsStepA st m).errors ++ _ = st.errors ++ _
    have he : (statsStepA st m).errors = st.errors := by
      simp only [statsStepA]
      split <;> rfl
    rw [he]
  · rw [hpr]
    show (statsStepA st m).file_formats m.containerFormat = _
    simp only [statsStepA]
    split <;> simp [bump]
  · rw [hpr]
    show (statsStepA st m).video_codecs m.videoCodec = _
    simp only [statsStepA]
    split <;> simp [bump]
  · intro k
    rw [hpr]
    show (statsStepA st m).soundtrack_counts k = _
    simp only [statsStepA]
    split <;> rfl
  · rw [hpr]
    show (statsStepA st m).sub_total_count = _
    simp only [statsStepA]
    split <;> rfl

/-- C9 witness: the amended theorem applied to the concrete faulty record on
the empty statistics. -/
theorem C9_fold_failure_scope_witness :
    (processRecord {} exRec1).sub_total_count = ({} : Stats).sub_total_count ∧
    (processRecord {} exRec1).file_formats exRec1.containerFormat
      = ({} : Stats).file_formats exRec1.containerFormat + 1 ∧
    (processRecord {} exRec1).errors.length = 1 := by
  have h := C9_fold_failure_scope {} exRec1 "abc" rfl rfl
  refine ⟨h.2.2.2.2.1, h.2.1, ?_⟩
  rw [h.1]
  simp

theorem simulate_transcoding_getElem (fd u : ℚ) (samples : Nat) (fr : String)
    (draw : Nat → ℚ) (procs : Nat → Proc) (h : ¬ min u fd ≤ 0) (i : Nat)
    (hi : i < samples) :
    (simulate_transcoding fd (some u) samples fr draw procs).1.get? i
        = some (sample_result (min u fd) fr (procs i)).1 ∧
    (simulate_transcoding fd (some u) samples fr draw procs).2.1.get? i
        = some (sample_result (min u fd) fr (procs i)).2.1 ∧
    (simulate_transcoding fd (some u) samples fr draw procs).2.2.get? i
        = some (sample_result (min u fd) fr (procs i)).2.2 := by
  simp [simulate_transcoding, h, List.get?_map, List.get?_range, hi]

/-- C7: sample 0 starts at offset 0 and each later sample at the drawn
offset, which lies in [0, file_duration − sample_duration] whenever the draw
honours the bounds passed to random.uniform; a subprocess still running after
sample_duration plus the 5-second grace is recorded as speed "<1", quotient
"<1" and tier "Low"; a non-zero exit gives speed "Error" and tier "Error";
a clean exit whose diagnostic stream has no regex match of the speed pattern
gives speed "N/A"; and a clean exit whose leftmost regex match has an
unconvertible capture (float raises, the blanket except returns "Error")
gives speed "Error" and tier "Error". -/
theorem C7_sampler_behaviour (fd u : ℚ) (samples : Nat) (fr : String)
    (draw : Nat → ℚ) (procs : Nat → Proc) (hfd : 0 < fd) (hu : 0 < u) :
    (sample_offsets draw 0 = 0) ∧
    (∀ i, i ≠ 0 → 0 ≤ draw i → draw i ≤ max 0 (fd - min u fd) →
      0 ≤ sample_offsets draw i ∧ sample_offsets draw i ≤ fd - min u fd) ∧
    (∀ i, i < samples →
      ((procs i).exitTime = none
        ∨ (∃ t, (procs i).exitTime = some t ∧ min u fd + 5 < t)) →
      (simulate_transcoding fd (some u) samples fr draw procs).1.get? i
          = some (.vStr "<1") ∧
      (simulate_transcoding fd (some u) samples fr draw procs).2.1.get? i
          = some (.vStr "<1") ∧
      (simulate_transcoding fd (some u) samples fr draw procs).2.2.get? i
          = some (.vStr "Low")) ∧
    (∀ i t, i < samples → (procs i).exitTime = some t → t ≤ min u fd + 5 →
      (procs i).code ≠ 0 →
      (simulate_transcoding fd (some u) samples fr draw procs).1.get? i
          = some (.vStr "Error") ∧
      (simulate_transcoding fd (some u) samples fr draw procs).2.2.get? i
          = some (.vStr "Error")) ∧
    (∀ i t, i < samples → (procs i).exitTime = some t → t ≤ min u fd + 5 →
      (procs i).code = 0 → findSpeedToken (procs i).stderr.data = none →
      (simulate_transcoding fd (some u) samples fr draw procs).1.get? i
          = some (.vStr "N/A")) ∧
    (∀ i t, i < samples → (procs i).exitTime = some t → t ≤ min u fd + 5 →
      (procs i).code = 0 → findSpeedToken (procs i).stderr.data = some none →
      (simulate_transcoding fd (some u) samples fr draw procs).1.get? i
          = some (.vStr "Error") ∧
      (simulate_transcoding fd (some u) samples fr draw procs).2.2.get? i
          = some (.vStr "Error")) := by
  have hsd : 0 < min u fd := lt_min hu hfd
  have hmin : ¬ (min u fd ≤ 0) := not_le.mpr hsd
  refine ⟨rfl, ?_, ?_, ?_, ?_, ?_⟩
  · intro i hi h0 hle
    rw [sample_offsets, if_neg hi]
    have hmax : max 0 (fd - min u fd) = fd - min u fd := by
      have hm : min u fd ≤ fd := min_le_right u fd
      exact max_eq_right (by linarith)
    rw [hmax] at hle
    exact ⟨h0, hle⟩
  · intro i hi hab
    obtain ⟨h1, h2, h3⟩ := simulate_transcoding_getElem fd u samples fr draw procs hmin i hi
    have hplex : simulate_plex_transcoding (min u fd) (procs i) = .vStr "Aborted" := by
      rcases hab with hnone | ⟨t, ht, htg⟩
      · rw [simulate_plex_transcoding, hnone]
      · simp only [simulate_plex_transcoding, ht]
        rw [if_pos htg]
    have hres : sample_result (min u fd) fr (procs i)
        = (.vStr "<1", .vStr "<1", .vStr "Low") := by
      rw [sample_result, hplex]
      rfl
    rw [hres] at h1 h2 h3
    exact ⟨h1, h2, h3⟩
  · intro i t hi ht htle hcode
    obtain ⟨h1, _, h3⟩ := simulate_transcoding_getElem fd u samples fr draw procs hmin i hi
    have hplex : simulate_plex_transcoding (min u fd) (procs i) = .vStr "Error" := by
      simp only [simulate_plex_transcoding, ht]
      rw [if_neg (not_lt.mpr htle), if_neg hcode]
    have hres1 : (sample_result (min u fd) fr (procs i)).1 = .vStr "Error" := by
      rw [sample_result, hplex]
      rfl
    have hres3 : (sample_result (min u fd) fr (procs i)).2.2 = .vStr "Error" := by
      rw [sample_result, hplex]
      rfl
    rw [hres1] at h1
    rw [hres3] at h3
    exact ⟨h1, h3⟩
  · intro i t hi ht htle hcode htok
    obtain ⟨h1, _, _⟩ := simulate_transcoding_getElem fd u samples fr draw procs hmin i hi
    have hplex : simulate_plex_transcoding (min u fd) (procs i) = .vStr "N/A" := by
      simp only [simulate_plex_transcoding, ht]
      rw [if_neg (not_lt.mpr htle), if_pos hcode, htok]
    have hres1 : (sample_result (min u fd) fr (procs i)).1 = .vStr "N/A" := by
      rw [sample_result, hplex]
      rfl
    rw [hres1] at h1
    exact h1
  · intro i t hi ht htle hcode htok
    obtain ⟨h1, _, h3⟩ := simulate_transcoding_getElem fd u samples fr draw procs hmin i hi
    have hplex : simulate_plex_transcoding (min u fd) (procs i) = .vStr "Error" := by
      simp only [simulate_plex_transcoding, ht]
      rw [if_neg (not_lt.mpr htle), if_pos hcode, htok]
    have hres1 : (sample_result (min u fd) fr (procs i)).1 = .vStr "Error" := by
      rw [sample_result, hplex]
      rfl
    have hres3 : (sample_result (min u fd) fr (procs i)).2.2 = .vStr "Error" := by
      rw [sample_result, hplex]
      rfl
    rw [hres1] at h1
    rw [hres3] at h3
    exact ⟨h1, h3⟩

/-- C7 witness: the theorem applied to a 4-sample run whose subprocesses
never exit, fail with code 1, exit cleanly without a speed token, and exit
cleanly with an unconvertible speed capture. -/
theorem C7_sampler_behaviour_witness :
    sample_offsets drawZero 0 = 0 ∧
    (simulate_transcoding 100 (some 30) 4 "25.000" drawZero exProcs7).1.get? 0
        = some (.vStr "<1") ∧
    (simulate_transcoding 100 (some 30) 4 "25.000" drawZero exProcs7).2.2.get? 0
        = some (.vStr "Low") ∧
    (simulate_transcoding 100 (some 30) 4 "25.000" drawZero exProcs7).2.2.get? 1
        = some (.vStr "Error") ∧
    (simulate_transcoding 100 (some 30) 4 "25.000" drawZero exProcs7).1.get? 2
        = some (.vStr "N/A") ∧
    (simulate_transcoding 100 (some 30) 4 "25.000" drawZero exProcs7).1.get? 3
        = some (.vStr "Error") := by
  have h := C7_sampler_behaviour 100 30 4 "25.000" drawZero exProcs7
    (by norm_num) (by norm_num)
  obtain ⟨h0, _, hab, herr, hna, hverr⟩ := h
  have h1 := hab 0 (by norm_num) (Or.inl rfl)
  have h2 := herr 1 1 (by norm_num) rfl (by decide) (by decide)
  have h3 := hna 2 1 (by norm_num) rfl (by decide) rfl (by decide)
  have h4 := hverr 3 1 (by norm_num) rfl (by decide) rfl (by decide)
  exact ⟨h0, h1.1, h1.2.2, h2.2, h3, h4.1⟩

theorem compile_results_length (fi : FileInfo) (vi : VideoInfo) (ai : AudioInfo)
    (si : SubtitleInfo) (is' : IssueSet) (ds : List String)
    (tr : List Val × List Val × List Val) (sep : String) :
    (compile_results fi vi ai si is' ds tr sep).length
      = 59 + tr.1.length + tr.2.1.length + tr.2.2.length := by
  obtain ⟨a, b, c⟩ := tr
  simp [compile_results, issueFlagStrs]
  omega

theorem simulate_transcoding_length (fd u : ℚ) (samples : Nat) (fr : String)
    (draw : Nat → ℚ) (procs : Nat → Proc) (h : ¬ min u fd ≤ 0) :
    (simulate_transcoding fd (some u) samples fr draw procs).1.length = samples ∧
    (simulate_transcoding fd (some u) samples fr draw procs).2.1.length = samples ∧
    (simulate_transcoding fd (some u) samples fr draw procs).2.2.length = samples := by
  simp [simulate_transcoding, h]

/-- C1 counterexample: with samples = 0 the successfully compiled record has
59 fields (40 fixed + 19 issue flags) while the probe-failure placeholder has
40, so the placeholder does not have the compiled record's width. -/
theorem C1_counterexample :
    Except.map List.length
      (process_file exMeta (some exDoc1) none 0 drawZero procsNone "; ") = .ok 59 ∧
    Except.map List.length
      (process_file exMeta none none 0 drawZero procsNone "; ") = .ok 40 ∧
    (59 : Nat) ≠ 40 :=
  ⟨rfl, rfl, by decide⟩

/-- C1 (amended): probe failure short-circuits with a 40-field all-"Error"
placeholder, while a successfully compiled record has 59 + 3*samples fields
(40 fixed fields, 19 issue flags, and three transcode lists of one entry per
sample); the placeholder is 19 + 3*samples fields short of a compiled
record, so the two widths never agree. -/
theorem C1_record_width (fm : FileMeta) (doc : ProbeDoc) (u : ℚ) (samples : Nat)
    (draw : Nat → ℚ) (procs : Nat → Proc) (sep : String) (fi : FileInfo)
    (r : List Val) (hfi : extract_file_info fm doc = .ok fi) (hd : 0 < fi.duration)
    (hu : 0 < u)
    (hr : process_file fm (some doc) (some u) samples draw procs sep = .ok r) :
    r.length = 59 + 3 * samples ∧
    process_file fm none (some u) samples draw procs sep
      = .ok (List.replicate 40 (Val.vStr "Error")) ∧
    (List.replicate 40 (Val.vStr "Error")).length = 40 ∧
    40 ≠ 59 + 3 * samples := by
  have hmin : ¬ (min u fi.duration ≤ 0) := not_le.mpr (lt_min hu hd)
  refine ⟨?_, rfl, by simp, by omega⟩
  rw [process_file] at hr
  rw [hfi, exceptBind_ok] at hr
  rw [if_neg (not_le.mpr hd)] at hr
  cases hdet : detect_issues fi (extract_video_info doc) (extract_audio_info doc)
      (extract_subtitle_info doc) with
  | error e =>
    rw [hdet, exceptBind_err] at hr
    exact absurd hr (by simp)
  | ok pr =>
    rw [hdet, exceptBind_ok] at hr
    have hr' : compile_results fi (extract_video_info doc) (extract_audio_info doc)
        (extract_subtitle_info doc) pr.1 pr.2
        (if samples > 0 then
          simulate_transcoding fi.duration (some u) samples
            (extract_video_info doc).frame_rate draw procs
         else ([], [], [])) sep = r := by
      cases hr
      rfl
    rw [← hr', compile_results_length]
    by_cases hs : samples > 0
    · rw [if_pos hs]
      obtain ⟨l1, l2, l3⟩ := simulate_transcoding_length fi.duration u samples
        (extract_video_info doc).frame_rate draw procs hmin
      rw [l1, l2, l3]
      omega
    · rw [if_neg hs]
      have hz : samples = 0 := by omega
      subst hz
      rfl

/-- C1 witness: the amended theorem applied to scenario 1 with a 30-second
sample duration and 2 samples: the compiled record has 65 fields. -/
theorem C1_record_width_witness :
    extract_file_info exMeta exDoc1 = .ok exFi1 ∧ (0 : ℚ) < exFi1.duration ∧
    ∃ r, process_file exMeta (some exDoc1) (some 30) 2 drawZero procsNone "; " = .ok r
      ∧ r.length = 59 + 3 * 2 := by
  have hfi : extract_file_info exMeta exDoc1 = .ok exFi1 := rfl
  have hd : (0 : ℚ) < exFi1.duration := by norm_num [exFi1]
  obtain ⟨r, hr⟩ : ∃ r, process_file exMeta (some exDoc1) (some 30) 2 drawZero
      procsNone "; " = .ok r := ⟨_, rfl⟩
  exact ⟨hfi, hd, r, hr, (C1_record_width exMeta exDoc1 30 2 drawZero procsNone
    "; " exFi1 r hfi hd (by norm_num) hr).1⟩

end MediaInv
